import Mathlib

/-!
simple_chat_api: validation, chat service, HTTP handlers and repositories.

A shallow embedding of `internal/models` (request validation),
`internal/service` (the chat service over its two repositories),
`internal/handlers` (the four HTTP handlers over the service interface) and
`internal/repository` (the repositories over `gorm`), followed by theorems
about them.

Conventions of the embedding.

* A Go `string` is a Lean `String`, a sequence of Unicode scalar values: the
  strings that reach the service come out of `encoding/json`, which only
  produces valid UTF-8. Go's `len(s)` is the number of bytes of the UTF-8
  encoding, `len` below.
* Go's `int` is `Int`; no arithmetic is performed on it, only comparison.
* `time.Time` is an `Int` instant: the seconds since the zero `Time`, January 1
  of year 1, 00:00:00 UTC, so the zero value is `0`. Times are read in UTC; the
  location and the nanoseconds are not kept.
* A Go `error` value is `Option GoError`, `none` being `nil`; a `*T` that may be
  `nil` is `Option T`.
* A method with a pointer receiver that assigns to the receiver returns the
  receiver's new value next to its result.
* The repositories are interfaces: any stateful implementation, given as
  functions on a store state. Every call made through the interface is appended
  to a log carried with the store state.
* The handlers act on the state of the `http.ResponseWriter` and on the state
  behind the `ChatService` interface, with a log of the service calls made.
  `encoding/json` is not embedded: decoding is a parameter of the handlers, and
  an encoded body is kept as the value that was encoded. Encoding fails, and
  writes nothing, on a value that holds a time `Time.MarshalJSON` refuses.
* `gorm` is not embedded either: the calls the repositories make on `*gorm.DB`
  are parameters, any functions on a database state.
-/

namespace SimpleChat

/-! ## Go standard library: `unicode`, `utf8`, `strings` -/

namespace unicode

/-- Go `unicode.IsSpace`: the Latin-1 spaces `\t \n \v \f \r`, space, U+0085,
U+00A0, and beyond Latin-1 the code points of the `White_Space` table. -/
def IsSpace (r : Char) : Bool :=
  let n := r.toNat
  if n ≤ 0xFF then
    n == 0x09 || n == 0x0A || n == 0x0B || n == 0x0C || n == 0x0D || n == 0x20
      || n == 0x85 || n == 0xA0
  else
    n == 0x1680 || (0x2000 ≤ n && n ≤ 0x200A) || n == 0x2028 || n == 0x2029
      || n == 0x202F || n == 0x205F || n == 0x3000

end unicode

namespace utf8

/-- Go `utf8.RuneLen` on a valid code point: bytes of its UTF-8 encoding. -/
def RuneLen (r : Char) : Nat :=
  let n := r.toNat
  if n < 0x80 then 1 else if n < 0x800 then 2 else if n < 0x10000 then 3 else 4

/-- Go `utf8.RuneCountInString`: the number of code points. -/
def RuneCountInString (s : String) : Nat := s.data.length

end utf8

/-- Go builtin `len` on a string: the number of bytes. -/
def len (s : String) : Nat := (s.data.map utf8.RuneLen).sum

namespace strings

/-- Go `strings.TrimSpace`: the string without its leading and trailing code
points that satisfy `unicode.IsSpace`. -/
def TrimSpace (s : String) : String :=
  ⟨(s.data.dropWhile unicode.IsSpace).rdropWhile unicode.IsSpace⟩

end strings

/-! ## `internal/models` and the error types -/

namespace models

structure Message where
  ID : Int
  ChatID : Int
  Text : String
  CreatedAt : Int
deriving DecidableEq, Repr

structure Chat where
  ID : Int
  Title : String
  CreatedAt : Int
  Messages : List Message
deriving DecidableEq, Repr

structure ValidationError where
  Field : String
  Message : String
deriving DecidableEq, Repr

/-- Go `(*ValidationError).Error`. -/
def ValidationError.Error (e : ValidationError) : String := e.Message

end models

/-- Go `service.NotFoundError`. -/
structure NotFoundError where
  Resource : String
  ID : Int
deriving DecidableEq, Repr

/-- Go `(*NotFoundError).Error`. -/
def NotFoundError.Error (e : NotFoundError) : String := e.Resource ++ " not found"

/-- The dynamic type of a non-nil Go `error`: one of the two error types of
this repository, or any other error, kept by its text. -/
inductive GoError where
  | validation (e : models.ValidationError)
  | notFound (e : NotFoundError)
  | other (text : String)
deriving DecidableEq, Repr

/-- The `Error()` method through the `error` interface. -/
def GoError.Error : GoError → String
  | .validation e => e.Error
  | .notFound e => e.Error
  | .other text => text

namespace models

structure CreateChatRequest where
  Title : String
deriving DecidableEq, Repr

structure CreateMessageRequest where
  Text : String
deriving DecidableEq, Repr

/-- Go `(*CreateChatRequest).Validate`: the request as the call leaves it, and
the returned error. -/
def CreateChatRequest.Validate (r : CreateChatRequest) : CreateChatRequest × Option GoError :=
  let title := strings.TrimSpace r.Title
  if title = "" then
    (r, some (.validation { Field := "title", Message := "title cannot be empty" }))
  else if len title > 200 then
    (r, some (.validation { Field := "title", Message := "title must be less than 200 characters" }))
  else
    ({ r with Title := title }, none)

/-- Go `(*CreateMessageRequest).Validate`: the request as the call leaves it,
and the returned error. -/
def CreateMessageRequest.Validate (r : CreateMessageRequest) :
    CreateMessageRequest × Option GoError :=
  let text := strings.TrimSpace r.Text
  if text = "" then
    (r, some (.validation { Field := "text", Message := "text cannot be empty" }))
  else if len text > 5000 then
    (r, some (.validation { Field := "text", Message := "text must be less than 5000 characters" }))
  else
    ({ r with Text := text }, none)

end models

/-! ## `internal/repository`: the two repository interfaces -/

namespace repository

/-- One call through a repository interface, with its arguments. -/
inductive Call where
  | ChatCreate (chat : models.Chat)
  | ChatGetByID (id limit : Int)
  | ChatDelete (id : Int)
  | MessageCreate (message : models.Message)
deriving DecidableEq, Repr

/-- Go interface `ChatRepository` over a store state `σ`. `Create` takes a
pointer and may assign to the chat it points to, so it returns the chat as it
leaves it. -/
structure ChatRepository (σ : Type) where
  Create : models.Chat → σ → (models.Chat × Option GoError) × σ
  GetByID : Int → Int → σ → (Option models.Chat × Option GoError) × σ
  Delete : Int → σ → Option GoError × σ

/-- Go interface `MessageRepository` over a store state `σ`. -/
structure MessageRepository (σ : Type) where
  Create : models.Message → σ → (models.Message × Option GoError) × σ

end repository

/-- The store state together with the log of repository calls, oldest first. -/
structure World (σ : Type) where
  store : σ
  calls : List repository.Call

namespace service

open models repository

/-- Go `service.chatService`. -/
structure chatService (σ : Type) where
  chatRepo : ChatRepository σ
  messageRepo : MessageRepository σ

variable {σ : Type}

/-- The call `s.chatRepo.Create(chat)`. -/
def chatService.callChatCreate (s : chatService σ) (chat : Chat) (w : World σ) :
    (Chat × Option GoError) × World σ :=
  let r := s.chatRepo.Create chat w.store
  (r.1, { store := r.2, calls := w.calls ++ [Call.ChatCreate chat] })

/-- The call `s.chatRepo.GetByID(id, limit)`. -/
def chatService.callChatGetByID (s : chatService σ) (id limit : Int) (w : World σ) :
    (Option Chat × Option GoError) × World σ :=
  let r := s.chatRepo.GetByID id limit w.store
  (r.1, { store := r.2, calls := w.calls ++ [Call.ChatGetByID id limit] })

/-- The call `s.chatRepo.Delete(id)`. -/
def chatService.callChatDelete (s : chatService σ) (id : Int) (w : World σ) :
    Option GoError × World σ :=
  let r := s.chatRepo.Delete id w.store
  (r.1, { store := r.2, calls := w.calls ++ [Call.ChatDelete id] })

/-- The call `s.messageRepo.Create(message)`. -/
def chatService.callMessageCreate (s : chatService σ) (message : Message) (w : World σ) :
    (Message × Option GoError) × World σ :=
  let r := s.messageRepo.Create message w.store
  (r.1, { store := r.2, calls := w.calls ++ [Call.MessageCreate message] })

/-- Go `(*chatService).CreateChat`. -/
def chatService.CreateChat (s : chatService σ) (req : CreateChatRequest) (w : World σ) :
    (Option Chat × Option GoError) × World σ :=
  match req.Validate with
  | (_, some err) => ((none, some err), w)
  | (req, none) =>
    let chat : Chat := { ID := 0, Title := req.Title, CreatedAt := 0, Messages := [] }
    match s.callChatCreate chat w with
    | ((_, some err), w) => ((none, some err), w)
    | ((chat, none), w) => ((some chat, none), w)

/-- Go `(*chatService).CreateMessage`. -/
def chatService.CreateMessage (s : chatService σ) (chatID : Int) (req : CreateMessageRequest)
    (w : World σ) : (Option Message × Option GoError) × World σ :=
  match req.Validate with
  | (_, some err) => ((none, some err), w)
  | (req, none) =>
    match s.callChatGetByID chatID 1 w with
    | ((_, some err), w) => ((none, some err), w)
    | ((none, none), w) =>
      ((none, some (.notFound { Resource := "chat", ID := chatID })), w)
    | ((some _, none), w) =>
      let message : Message := { ID := 0, ChatID := chatID, Text := req.Text, CreatedAt := 0 }
      match s.callMessageCreate message w with
      | ((_, some err), w) => ((none, some err), w)
      | ((message, none), w) => ((some message, none), w)

/-- Go `(*chatService).GetChatWithMessages`. -/
def chatService.GetChatWithMessages (s : chatService σ) (id limit : Int) (w : World σ) :
    (Option Chat × Option GoError) × World σ :=
  let limit := if limit > 100 then 100 else limit
  match s.callChatGetByID id limit w with
  | ((_, some err), w) => ((none, some err), w)
  | ((none, none), w) => ((none, some (.notFound { Resource := "chat", ID := id })), w)
  | ((some chat, none), w) => ((some chat, none), w)

/-- Go `(*chatService).DeleteChat`. -/
def chatService.DeleteChat (s : chatService σ) (id : Int) (w : World σ) :
    Option GoError × World σ :=
  s.callChatDelete id w

/-- A chat repository in the manner of `MockChatRepository` of
`chat_service_test.go`: `GetByID` gives a fixed answer, `Create` and `Delete`
return a fixed error, and `Create` assigns the next id as the test's `Run`
callback does. The store state counts the ids handed out. -/
def mockChatRepository (answer : Option Chat × Option GoError) (err : Option GoError) :
    ChatRepository Nat where
  Create chat n := (({ chat with ID := (n : Int) + 1 }, err), n + 1)
  GetByID _ _ n := (answer, n)
  Delete _ n := (err, n)

/-- A message repository in the manner of `MockMessageRepository`. -/
def mockMessageRepository (err : Option GoError) : MessageRepository Nat where
  Create message n := (({ message with ID := (n : Int) + 1 }, err), n + 1)

/-- Go `NewChatService` over the two mocks. -/
def mockService (answer : Option Chat × Option GoError) (err : Option GoError) :
    chatService Nat :=
  { chatRepo := mockChatRepository answer err, messageRepo := mockMessageRepository err }

/-- The chat of `TestChatService_GetChatWithMessages_Success`. -/
def testChat : Chat :=
  { ID := 1, Title := "Test Chat", CreatedAt := 0, Messages :=
      [{ ID := 1, ChatID := 1, Text := "Message 1", CreatedAt := 0 },
       { ID := 2, ChatID := 1, Text := "Message 2", CreatedAt := 0 }] }

end service

/-! ## Go standard library: `strconv`, `net/http`, `encoding/json` -/

namespace strconv

/-- The two causes in a Go `*strconv.NumError`. -/
inductive NumError where
  | ErrSyntax
  | ErrRange
deriving DecidableEq, Repr

/-- The value of a string of decimal digits. -/
def digitsValue (ds : List Char) : Nat :=
  ds.foldl (fun n ch => n * 10 + (ch.toNat - '0'.toNat)) 0

/-- Go `strconv.Atoi` with a 64-bit `int`: an optional sign, then one or more
decimal digits. Anything else is a syntax error with value 0; a value outside
the `int` range is a range error with the nearest bound as value. -/
def Atoi (s : String) : Int × Option NumError :=
  let neg := s.data.head? = some '-'
  let ds := match s.data with
    | '-' :: rest => rest
    | '+' :: rest => rest
    | l => l
  if ds = [] ∨ ¬ ds.all Char.isDigit then (0, some .ErrSyntax)
  else
    let n := digitsValue ds
    if neg then
      if n > 2 ^ 63 then (-(2 ^ 63 : Int), some .ErrRange) else (-(n : Int), none)
    else
      if n > 2 ^ 63 - 1 then ((2 ^ 63 - 1 : Int), some .ErrRange) else ((n : Int), none)

end strconv

namespace time

/-- Go `time.Unix(sec, 0)`: the instant `sec` seconds after January 1, 1970 UTC,
which is 719162 days after the zero `Time`. -/
def Unix (sec : Int) : Int := sec + 719162 * 86400

/-- The first instant of year 0, a leap year, 366 days before the zero `Time`. -/
def yearZero : Int := -(366 * 86400)

/-- The first instant of year 10000: 9999 years after the zero `Time`, of which
`9999 / 4 - 9999 / 100 + 9999 / 400` are leap years. -/
def yearTenThousand : Int := (365 * 9999 + (9999 / 4 - 9999 / 100 + 9999 / 400)) * 86400

/-- Whether Go `(Time).MarshalJSON` succeeds: it returns the error
"Time.MarshalJSON: year outside of range [0,9999]" for any other year. -/
def MarshalJSONOk (t : Int) : Bool := decide (yearZero ≤ t) && decide (t < yearTenThousand)

end time

namespace json

/-- The Go value handed to `json.NewEncoder(w).Encode`: the map
`map[string]string{"error": m}`, a `*models.Chat` or a `*models.Message`. -/
inductive Value where
  | errorMap (m : String)
  | chat (c : Option models.Chat)
  | message (m : Option models.Message)
deriving DecidableEq, Repr

/-- Go `json.NewDecoder(body).Decode(&req)` for the two request types: the
request as decoding leaves it, and the error. The decoder itself is the
standard library's and is a parameter of the handlers. -/
structure Decoder where
  CreateChatRequest : String → models.CreateChatRequest × Option GoError
  CreateMessageRequest : String → models.CreateMessageRequest × Option GoError

/-- Whether Go `json.Marshal` succeeds on the value: strings and integers always
marshal, a nil pointer marshals as `null`, and a chat or message marshals when
`MarshalJSON` succeeds on every `created_at` in it. -/
def Marshals : Value → Bool
  | .errorMap _ => true
  | .chat none => true
  | .chat (some c) =>
    time.MarshalJSONOk c.CreatedAt && c.Messages.all (fun m => time.MarshalJSONOk m.CreatedAt)
  | .message none => true
  | .message (some m) => time.MarshalJSONOk m.CreatedAt

end json

namespace http

def StatusOK : Nat := 200
def StatusCreated : Nat := 201
def StatusNoContent : Nat := 204
def StatusBadRequest : Nat := 400
def StatusNotFound : Nat := 404
def StatusInternalServerError : Nat := 500

/-- One write to the response body: text, or the JSON encoding of a value
followed by a newline, as `Encode` writes it. -/
inductive Written where
  | text (s : String)
  | json (v : json.Value)
deriving DecidableEq, Repr

/-- The state of a Go `http.ResponseWriter`, as `httptest.ResponseRecorder`
keeps it: the status code, whether the header was written, the header map as
key-value pairs, and the writes to the body, oldest first. -/
structure ResponseWriter where
  Code : Nat
  wroteHeader : Bool
  Header : List (String × String)
  Body : List Written
deriving DecidableEq, Repr

/-- Go `httptest.NewRecorder()`. -/
def NewRecorder : ResponseWriter :=
  { Code := 200, wroteHeader := false, Header := [], Body := [] }

/-- Go `w.Header().Get(key)`. -/
def ResponseWriter.HeaderGet (w : ResponseWriter) (key : String) : String :=
  match w.Header.find? (fun kv => kv.1 = key) with
  | some kv => kv.2
  | none => ""

/-- Go `w.Header().Del(key)`. -/
def ResponseWriter.HeaderDel (w : ResponseWriter) (key : String) : ResponseWriter :=
  { w with Header := w.Header.filter (fun kv => kv.1 ≠ key) }

/-- Go `w.Header().Set(key, value)`. -/
def ResponseWriter.HeaderSet (w : ResponseWriter) (key value : String) : ResponseWriter :=
  { w with Header := (key, value) :: w.Header.filter (fun kv => kv.1 ≠ key) }

/-- Go `w.WriteHeader(code)`: the first call fixes the status. -/
def ResponseWriter.WriteHeader (w : ResponseWriter) (code : Nat) : ResponseWriter :=
  if w.wroteHeader then w else { w with Code := code, wroteHeader := true }

/-- Go `w.Write`: writes the header with status 200 if it was not written. -/
def ResponseWriter.Write (w : ResponseWriter) (b : Written) : ResponseWriter :=
  let w := w.WriteHeader StatusOK
  { w with Body := w.Body ++ [b] }

/-- Go `json.NewEncoder(w).Encode(v)`: the value is marshalled first; when that
fails nothing is written and the error is returned. -/
def ResponseWriter.Encode (w : ResponseWriter) (v : json.Value) :
    ResponseWriter × Option GoError :=
  if json.Marshals v then (w.Write (.json v), none)
  else (w, some (.other
    "json: error calling MarshalJSON for type time.Time: Time.MarshalJSON: year outside of range [0,9999]"))

/-- Go `http.Error(w, error, code)`. -/
def Error (w : ResponseWriter) (error : String) (code : Nat) : ResponseWriter :=
  let w := w.HeaderDel "Content-Length"
  let w := w.HeaderSet "Content-Type" "text/plain; charset=utf-8"
  let w := w.HeaderSet "X-Content-Type-Options" "nosniff"
  let w := w.WriteHeader code
  w.Write (.text (error ++ "\n"))

/-- The parts of a Go `*http.Request` the handlers read: the path wildcards,
the parsed URL query in order, and the body. -/
structure Request where
  PathValues : List (String × String)
  Query : List (String × String)
  Body : String
deriving DecidableEq, Repr

/-- Go `r.PathValue(name)`: the value of the wildcard, or "". -/
def Request.PathValue (r : Request) (name : String) : String :=
  match r.PathValues.find? (fun kv => kv.1 = name) with
  | some kv => kv.2
  | none => ""

/-- Go `r.URL.Query().Get(key)`: the first value of the key, or "". -/
def Request.QueryGet (r : Request) (key : String) : String :=
  match r.Query.find? (fun kv => kv.1 = key) with
  | some kv => kv.2
  | none => ""

end http

/-! ## `internal/handlers` -/

namespace service

open models

/-- Go interface `service.ChatService` over a state `τ`. -/
structure ChatService (τ : Type) where
  CreateChat : CreateChatRequest → τ → (Option Chat × Option GoError) × τ
  CreateMessage : Int → CreateMessageRequest → τ → (Option Message × Option GoError) × τ
  GetChatWithMessages : Int → Int → τ → (Option Chat × Option GoError) × τ
  DeleteChat : Int → τ → Option GoError × τ

/-- Go `NewChatService`: the `chatService` behind the interface. -/
def NewChatService {σ : Type} (chatRepo : repository.ChatRepository σ)
    (messageRepo : repository.MessageRepository σ) : ChatService (World σ) :=
  let s : chatService σ := { chatRepo := chatRepo, messageRepo := messageRepo }
  { CreateChat := s.CreateChat
    CreateMessage := s.CreateMessage
    GetChatWithMessages := s.GetChatWithMessages
    DeleteChat := s.DeleteChat }

end service

namespace handlers

open models service

/-- One call through the `ChatService` interface, with its arguments. -/
inductive ServiceCall where
  | CreateChat (req : CreateChatRequest)
  | CreateMessage (chatID : Int) (req : CreateMessageRequest)
  | GetChatWithMessages (id limit : Int)
  | DeleteChat (id : Int)
deriving DecidableEq, Repr

/-- What a handler acts on besides the response: the state behind the service,
the log of service calls, oldest first, and the lines given to `log.Printf`. -/
structure Env (τ : Type) where
  state : τ
  calls : List ServiceCall
  logged : List String

/-- Go `handlers.ChatHandler`. -/
structure ChatHandler (τ : Type) where
  service : ChatService τ

variable {τ : Type}

/-- Go `NewChatHandler`. -/
def NewChatHandler (service : ChatService τ) : ChatHandler τ := { service := service }

/-- Go `log.Printf(format, err)` with the `%v` of the error filled in. -/
def logPrintf (env : Env τ) (line : String) (err : GoError) : Env τ :=
  { env with logged := env.logged ++ [line ++ err.Error] }

/-- The call `h.service.CreateChat(req)`. -/
def ChatHandler.callCreateChat (h : ChatHandler τ) (req : CreateChatRequest) (env : Env τ) :
    (Option Chat × Option GoError) × Env τ :=
  let r := h.service.CreateChat req env.state
  (r.1, { env with state := r.2, calls := env.calls ++ [ServiceCall.CreateChat req] })

/-- The call `h.service.CreateMessage(chatID, req)`. -/
def ChatHandler.callCreateMessage (h : ChatHandler τ) (chatID : Int)
    (req : CreateMessageRequest) (env : Env τ) :
    (Option Message × Option GoError) × Env τ :=
  let r := h.service.CreateMessage chatID req env.state
  (r.1, { env with state := r.2,
                   calls := env.calls ++ [ServiceCall.CreateMessage chatID req] })

/-- The call `h.service.GetChatWithMessages(chatID, limit)`. -/
def ChatHandler.callGetChatWithMessages (h : ChatHandler τ) (chatID limit : Int)
    (env : Env τ) : (Option Chat × Option GoError) × Env τ :=
  let r := h.service.GetChatWithMessages chatID limit env.state
  (r.1, { env with state := r.2,
                   calls := env.calls ++ [ServiceCall.GetChatWithMessages chatID limit] })

/-- The call `h.service.DeleteChat(chatID)`. -/
def ChatHandler.callDeleteChat (h : ChatHandler τ) (chatID : Int) (env : Env τ) :
    Option GoError × Env τ :=
  let r := h.service.DeleteChat chatID env.state
  (r.1, { env with state := r.2, calls := env.calls ++ [ServiceCall.DeleteChat chatID] })

/-- Go `(*ChatHandler).CreateChat`. -/
def ChatHandler.CreateChat (h : ChatHandler τ) (dec : json.Decoder) (w : http.ResponseWriter)
    (r : http.Request) (env : Env τ) : http.ResponseWriter × Env τ :=
  match dec.CreateChatRequest r.Body with
  | (_, some _) => (http.Error w "Invalid request body" http.StatusBadRequest, env)
  | (req, none) =>
    match h.callCreateChat req env with
    | ((_, some err), env) =>
      match err with
      | .validation _ =>
        let w := w.HeaderSet "Content-Type" "application/json"
        let w := w.WriteHeader http.StatusBadRequest
        ((w.Encode (.errorMap err.Error)).1, env)
      | _ =>
        let env := logPrintf env "Error creating chat: " err
        (http.Error w "Internal server error" http.StatusInternalServerError, env)
    | ((chat, none), env) =>
      let w := w.HeaderSet "Content-Type" "application/json"
      let w := w.WriteHeader http.StatusCreated
      ((w.Encode (.chat chat)).1, env)

/-- Go `(*ChatHandler).CreateMessage`. -/
def ChatHandler.CreateMessage (h : ChatHandler τ) (dec : json.Decoder)
    (w : http.ResponseWriter) (r : http.Request) (env : Env τ) :
    http.ResponseWriter × Env τ :=
  let chatIDStr := r.PathValue "id"
  match strconv.Atoi chatIDStr with
  | (_, some _) => (http.Error w "Invalid chat ID" http.StatusBadRequest, env)
  | (chatID, none) =>
    match dec.CreateMessageRequest r.Body with
    | (_, some _) => (http.Error w "Invalid request body" http.StatusBadRequest, env)
    | (req, none) =>
      match h.callCreateMessage chatID req env with
      | ((_, some err), env) =>
        match err with
        | .notFound _ => (http.Error w err.Error http.StatusNotFound, env)
        | .validation _ =>
          let w := w.HeaderSet "Content-Type" "application/json"
          let w := w.WriteHeader http.StatusBadRequest
          ((w.Encode (.errorMap err.Error)).1, env)
        | _ =>
          let env := logPrintf env "Error creating message: " err
          (http.Error w "Internal server error" http.StatusInternalServerError, env)
      | ((message, none), env) =>
        let w := w.HeaderSet "Content-Type" "application/json"
        let w := w.WriteHeader http.StatusCreated
        ((w.Encode (.message message)).1, env)

/-- The limit that `GetChat` reads from the query: lines 90 to 97 of
`chat_handler.go`. -/
def getChatLimit (r : http.Request) : Int :=
  let limit : Int := 20
  let limitStr := r.QueryGet "limit"
  if limitStr ≠ "" then
    match strconv.Atoi limitStr with
    | (limit, err) => if err ≠ none ∨ limit < 1 then 20 else limit
  else limit

/-- Go `(*ChatHandler).GetChat`. -/
def ChatHandler.GetChat (h : ChatHandler τ) (w : http.ResponseWriter) (r : http.Request)
    (env : Env τ) : http.ResponseWriter × Env τ :=
  let chatIDStr := r.PathValue "id"
  match strconv.Atoi chatIDStr with
  | (_, some _) => (http.Error w "Invalid chat ID" http.StatusBadRequest, env)
  | (chatID, none) =>
    let limit := getChatLimit r
    match h.callGetChatWithMessages chatID limit env with
    | ((_, some err), env) =>
      match err with
      | .notFound _ => (http.Error w err.Error http.StatusNotFound, env)
      | _ =>
        let env := logPrintf env "Error getting chat: " err
        (http.Error w "Internal server error" http.StatusInternalServerError, env)
    | ((chat, none), env) =>
      let w := w.HeaderSet "Content-Type" "application/json"
      ((w.Encode (.chat chat)).1, env)

/-- Go `(*ChatHandler).DeleteChat`. -/
def ChatHandler.DeleteChat (h : ChatHandler τ) (w : http.ResponseWriter) (r : http.Request)
    (env : Env τ) : http.ResponseWriter × Env τ :=
  let chatIDStr := r.PathValue "id"
  match strconv.Atoi chatIDStr with
  | (_, some _) => (http.Error w "Invalid chat ID" http.StatusBadRequest, env)
  | (chatID, none) =>
    match h.callDeleteChat chatID env with
    | (some err, env) =>
      let env := logPrintf env "Error deleting chat: " err
      (http.Error w "Internal server error" http.StatusInternalServerError, env)
    | (none, env) => (w.WriteHeader http.StatusNoContent, env)

/-- A service in the manner of `MockChatService` of `chat_handler_test.go`:
every method gives a fixed answer. -/
def mockChatService (chat : Option Chat × Option GoError)
    (message : Option Message × Option GoError) (err : Option GoError) : ChatService Unit where
  CreateChat _ u := (chat, u)
  CreateMessage _ _ u := (message, u)
  GetChatWithMessages _ _ u := (chat, u)
  DeleteChat _ u := (err, u)

/-- A decoder for the bodies used in the examples: the body is taken as the
title or text itself, and the body `{"invalid json` of
`TestCreateChatHandler_InvalidJSON` is refused. -/
def mockDecoder : json.Decoder where
  CreateChatRequest body :=
    if body = "\x7b\"invalid json" then ({ Title := "" }, some (.other "unexpected EOF"))
    else ({ Title := body }, none)
  CreateMessageRequest body :=
    if body = "\x7b\"invalid json" then ({ Text := "" }, some (.other "unexpected EOF"))
    else ({ Text := body }, none)

/-- A request with the given chat id segment, `limit` query values and body. -/
def mockRequest (id : String) (query : List (String × String)) (body : String) :
    http.Request :=
  { PathValues := [("id", id)], Query := query, Body := body }

/-- The environment a test starts in. -/
def mockEnv : Env Unit := { state := (), calls := [], logged := [] }

end handlers

/-! ## `gorm.io/gorm` and `internal/repository` over it -/

namespace gorm

/-- The calls on `*gorm.DB` that the repositories make, over a database state
`σ`. The library itself is a parameter: each call is any function on the state.
`First` is `db.First(&chat, id).Error`, given the chat it is to fill and
returning the chat as it leaves it. `FindMessages` is
`db.Model(&chat).Limit(limit).Order("created_at DESC").Association("Messages").Find(&chat.Messages)`,
returning the messages as it leaves them. `IsRecordNotFound err` is
`errors.Is(err, gorm.ErrRecordNotFound)`. -/
structure DB (σ : Type) where
  CreateChat : models.Chat → σ → (models.Chat × Option GoError) × σ
  CreateMessage : models.Message → σ → (models.Message × Option GoError) × σ
  First : models.Chat → Int → σ → (models.Chat × Option GoError) × σ
  FindMessages : models.Chat → Int → σ → (List models.Message × Option GoError) × σ
  DeleteChat : Int → σ → Option GoError × σ
  IsRecordNotFound : GoError → Bool

end gorm

namespace repository

open models

/-- Go `repository.chatRepository`. -/
structure chatRepository (σ : Type) where
  db : gorm.DB σ

/-- Go `repository.messageRepository`. -/
structure messageRepository (σ : Type) where
  db : gorm.DB σ

variable {σ : Type}

/-- Go `(*chatRepository).Create`. -/
def chatRepository.Create (r : chatRepository σ) (chat : Chat) (st : σ) :
    (Chat × Option GoError) × σ :=
  r.db.CreateChat chat st

/-- Go `(*chatRepository).GetByID`. -/
def chatRepository.GetByID (r : chatRepository σ) (id limit : Int) (st : σ) :
    (Option Chat × Option GoError) × σ :=
  let chat : Chat := { ID := 0, Title := "", CreatedAt := 0, Messages := [] }
  match r.db.First chat id st with
  | ((_, some err), st) =>
    if r.db.IsRecordNotFound err then ((none, none), st)
    else ((none, some err), st)
  | ((chat, none), st) =>
    match r.db.FindMessages chat limit st with
    | ((_, some err), st) => ((none, some err), st)
    | ((messages, none), st) => ((some { chat with Messages := messages }, none), st)

/-- Go `(*chatRepository).Delete`. -/
def chatRepository.Delete (r : chatRepository σ) (id : Int) (st : σ) : Option GoError × σ :=
  r.db.DeleteChat id st

/-- Go `(*messageRepository).Create`. -/
def messageRepository.Create (r : messageRepository σ) (message : Message) (st : σ) :
    (Message × Option GoError) × σ :=
  r.db.CreateMessage message st

/-- Go `NewChatRepository`: the `chatRepository` behind the interface. -/
def NewChatRepository (db : gorm.DB σ) : ChatRepository σ :=
  let r : chatRepository σ := { db := db }
  { Create := r.Create, GetByID := r.GetByID, Delete := r.Delete }

/-- Go `NewMessageRepository`: the `messageRepository` behind the interface. -/
def NewMessageRepository (db : gorm.DB σ) : MessageRepository σ :=
  let r : messageRepository σ := { db := db }
  { Create := r.Create }

/-- A database in the manner of the `sqlmock` set-ups of
`chat_repository_test.go`: the chat lookup and the message query give fixed
answers, and the error with the text "record not found" stands for
`gorm.ErrRecordNotFound`. -/
def mockDB (first : Chat × Option GoError) (messages : List Message × Option GoError) :
    gorm.DB Unit where
  CreateChat chat u := ((chat, none), u)
  CreateMessage message u := ((message, none), u)
  First _ _ u := (first, u)
  FindMessages _ _ u := (messages, u)
  DeleteChat _ u := (none, u)
  IsRecordNotFound err := err = GoError.other "record not found"

end repository

namespace handlers

/-- The environment of a handler over the chat service over the mock
repositories of the service tests. -/
def mockWorldEnv : Env (World Nat) :=
  { state := { store := 0, calls := [] }, calls := [], logged := [] }

/-- A chat created on January 1 of year 10000 UTC, the first instant that
`Time.MarshalJSON` refuses. -/
def farFutureChat : models.Chat :=
  { ID := 1, Title := "New Chat", CreatedAt := time.Unix 253402300800, Messages := [] }

/-- A message created on January 1 of year 10000 UTC. -/
def farFutureMessage : models.Message :=
  { ID := 1, ChatID := 1, Text := "Hello World", CreatedAt := time.Unix 253402300800 }

end handlers

/-! ## Lemmas on trimming -/

section Trimming

theorem head_rdropWhile_dropWhile_not (p : Char → Bool) (l : List Char) (a : Char)
    (r : List Char) (hr : (l.dropWhile p).rdropWhile p = a :: r) : p a = false := by
  obtain ⟨t, ht⟩ := List.rdropWhile_prefix p (l.dropWhile p)
  rw [hr] at ht
  have hne : l.dropWhile p ≠ [] := by rw [← ht]; simp
  have ha := List.head_dropWhile_not p l hne
  have h2 : (l.dropWhile p).head hne = a := by
    have h3 : (l.dropWhile p).head? = some a := by rw [← ht]; rfl
    rw [List.head?_eq_head hne] at h3
    exact Option.some.inj h3
  rw [h2] at ha
  exact ha

theorem dropWhile_rdropWhile_dropWhile (p : Char → Bool) (l : List Char) :
    ((l.dropWhile p).rdropWhile p).dropWhile p = (l.dropWhile p).rdropWhile p := by
  cases hr : (l.dropWhile p).rdropWhile p with
  | nil => rfl
  | cons a r =>
    have ha := head_rdropWhile_dropWhile_not p l a r hr
    simp [List.dropWhile, ha]

theorem rdropWhile_append_rtakeWhile (p : Char → Bool) (l : List Char) :
    l.rdropWhile p ++ l.rtakeWhile p = l := by
  unfold List.rdropWhile List.rtakeWhile
  rw [← List.reverse_append, List.takeWhile_append_dropWhile, List.reverse_reverse]

theorem strings.TrimSpace_idem (s : String) :
    strings.TrimSpace (strings.TrimSpace s) = strings.TrimSpace s := by
  simp only [strings.TrimSpace, dropWhile_rdropWhile_dropWhile, List.rdropWhile_idempotent]

theorem strings.TrimSpace_eq_empty_iff (s : String) :
    strings.TrimSpace s = "" ↔ ∀ c ∈ s.data, unicode.IsSpace c = true := by
  constructor
  · intro h
    have h1 : (s.data.dropWhile unicode.IsSpace).rdropWhile unicode.IsSpace = [] := by
      have h0 := congrArg String.data h
      simpa [strings.TrimSpace] using h0
    rw [List.rdropWhile_eq_nil_iff] at h1
    have h2 : s.data.dropWhile unicode.IsSpace = [] := by
      cases hd : s.data.dropWhile unicode.IsSpace with
      | nil => rfl
      | cons a r =>
        have hne : s.data.dropWhile unicode.IsSpace ≠ [] := by rw [hd]; simp
        have ha := List.head_dropWhile_not unicode.IsSpace s.data hne
        have hmem := h1 _ (List.head_mem hne)
        rw [ha] at hmem
        exact absurd hmem (by simp)
    exact List.dropWhile_eq_nil_iff.mp h2
  · intro h
    have h2 : s.data.dropWhile unicode.IsSpace = [] := List.dropWhile_eq_nil_iff.mpr h
    simp only [strings.TrimSpace, h2, List.rdropWhile_nil]

/-- The trimmed string is the original without a prefix and a suffix that are
all white space. -/
theorem strings.TrimSpace_decomp (s : String) :
    ∃ pre post : List Char, s.data = pre ++ (strings.TrimSpace s).data ++ post
      ∧ (∀ c ∈ pre, unicode.IsSpace c = true) ∧ (∀ c ∈ post, unicode.IsSpace c = true) := by
  refine ⟨s.data.takeWhile unicode.IsSpace,
    (s.data.dropWhile unicode.IsSpace).rtakeWhile unicode.IsSpace, ?_, ?_, ?_⟩
  · simp only [strings.TrimSpace, List.append_assoc, rdropWhile_append_rtakeWhile,
      List.takeWhile_append_dropWhile]
  · intro c hc; exact List.mem_takeWhile_imp hc
  · intro c hc; exact List.mem_rtakeWhile_imp hc

/-- The trimmed string does not start with white space. -/
theorem strings.TrimSpace_head (s : String) (a : Char) (r : List Char)
    (h : (strings.TrimSpace s).data = a :: r) : unicode.IsSpace a = false :=
  head_rdropWhile_dropWhile_not unicode.IsSpace s.data a r h

/-- The trimmed string does not end with white space. -/
theorem strings.TrimSpace_last (s : String) (h : (strings.TrimSpace s).data ≠ []) :
    unicode.IsSpace ((strings.TrimSpace s).data.getLast h) = false := by
  have h1 := List.rdropWhile_last_not unicode.IsSpace
    (s.data.dropWhile unicode.IsSpace) h
  simpa [strings.TrimSpace] using h1

theorem dropWhile_append_of_all (p : Char → Bool) (pre rest : List Char)
    (hpre : ∀ c ∈ pre, p c = true) : (pre ++ rest).dropWhile p = rest.dropWhile p := by
  induction pre with
  | nil => rfl
  | cons a t ih =>
    have ha : p a = true := hpre a (List.mem_cons_self a t)
    have ht : ∀ c ∈ t, p c = true := fun c hc => hpre c (List.mem_cons_of_mem a hc)
    simp only [List.cons_append, List.dropWhile_cons, ha, if_true]
    exact ih ht

theorem rdropWhile_append_of_all (p : Char → Bool) (rest post : List Char)
    (hpost : ∀ c ∈ post, p c = true) : (rest ++ post).rdropWhile p = rest.rdropWhile p := by
  unfold List.rdropWhile
  rw [List.reverse_append, dropWhile_append_of_all p post.reverse rest.reverse
    (fun c hc => hpost c (List.mem_reverse.mp hc))]

/-- A string that trimming leaves alone, padded with white space on both
sides, trims back to itself. -/
theorem strings.TrimSpace_padded (pre core post : List Char)
    (hpre : ∀ c ∈ pre, unicode.IsSpace c = true)
    (hpost : ∀ c ∈ post, unicode.IsSpace c = true)
    (hcore : strings.TrimSpace ⟨core⟩ = ⟨core⟩) :
    strings.TrimSpace ⟨pre ++ core ++ post⟩ = ⟨core⟩ := by
  have hc : (core.dropWhile unicode.IsSpace).rdropWhile unicode.IsSpace = core := by
    have h0 := congrArg String.data hcore
    simpa [strings.TrimSpace] using h0
  have hd : core.dropWhile unicode.IsSpace = core := by
    cases hcase : core with
    | nil => rfl
    | cons a r =>
      have ha : unicode.IsSpace a = false :=
        head_rdropWhile_dropWhile_not unicode.IsSpace core a r (by rw [hc, hcase])
      simp [List.dropWhile, ha]
  have hr : core.rdropWhile unicode.IsSpace = core := by rw [hd] at hc; exact hc
  have h1 : (pre ++ core ++ post).dropWhile unicode.IsSpace
      = (core ++ post).dropWhile unicode.IsSpace := by
    rw [List.append_assoc]; exact dropWhile_append_of_all _ _ _ hpre
  have h2 : ((core ++ post).dropWhile unicode.IsSpace).rdropWhile unicode.IsSpace = core := by
    cases hcase : core with
    | nil =>
      have h3 : post.dropWhile unicode.IsSpace = [] := List.dropWhile_eq_nil_iff.mpr hpost
      simp only [List.nil_append, h3, List.rdropWhile_nil]
    | cons a r =>
      have ha : unicode.IsSpace a = false :=
        head_rdropWhile_dropWhile_not unicode.IsSpace core a r (by rw [hc, hcase])
      have h4 : (a :: r ++ post).dropWhile unicode.IsSpace = a :: r ++ post := by
        simp [List.dropWhile, ha]
      rw [h4, rdropWhile_append_of_all _ _ _ hpost, ← hcase, hr]
  simp only [strings.TrimSpace, h1, h2]

theorem len_mk_append (a b : List Char) :
    len (String.mk (a ++ b)) = len (String.mk a) + len (String.mk b) := by
  simp [len]

theorem len_mk_replicate (n : Nat) (c : Char) :
    len (String.mk (List.replicate n c)) = n * utf8.RuneLen c := by
  simp [len]

end Trimming

/-! ## Validation -/

section Validation

open models

/-- The outcome of `CreateChatRequest.Validate` by cases on the trimmed title. -/
theorem chatRequest_validate_cases (r : CreateChatRequest) :
    (strings.TrimSpace r.Title = "" ∧ r.Validate = (r, some (GoError.validation
        { Field := "title", Message := "title cannot be empty" })))
      ∨ (strings.TrimSpace r.Title ≠ "" ∧ 200 < len (strings.TrimSpace r.Title)
        ∧ r.Validate = (r, some (GoError.validation
          { Field := "title", Message := "title must be less than 200 characters" })))
      ∨ (strings.TrimSpace r.Title ≠ "" ∧ len (strings.TrimSpace r.Title) ≤ 200
        ∧ r.Validate = ({ Title := strings.TrimSpace r.Title }, none)) := by
  unfold CreateChatRequest.Validate
  simp only
  split_ifs with h1 h2
  · exact Or.inl ⟨h1, rfl⟩
  · exact Or.inr (Or.inl ⟨h1, h2, rfl⟩)
  · exact Or.inr (Or.inr ⟨h1, not_lt.mp h2, rfl⟩)

/-- The outcome of `CreateMessageRequest.Validate` by cases on the trimmed text. -/
theorem messageRequest_validate_cases (r : CreateMessageRequest) :
    (strings.TrimSpace r.Text = "" ∧ r.Validate = (r, some (GoError.validation
        { Field := "text", Message := "text cannot be empty" })))
      ∨ (strings.TrimSpace r.Text ≠ "" ∧ 5000 < len (strings.TrimSpace r.Text)
        ∧ r.Validate = (r, some (GoError.validation
          { Field := "text", Message := "text must be less than 5000 characters" })))
      ∨ (strings.TrimSpace r.Text ≠ "" ∧ len (strings.TrimSpace r.Text) ≤ 5000
        ∧ r.Validate = ({ Text := strings.TrimSpace r.Text }, none)) := by
  unfold CreateMessageRequest.Validate
  simp only
  split_ifs with h1 h2
  · exact Or.inl ⟨h1, rfl⟩
  · exact Or.inr (Or.inl ⟨h1, h2, rfl⟩)
  · exact Or.inr (Or.inr ⟨h1, not_lt.mp h2, rfl⟩)

/-- A string has at least as many bytes as code points. -/
theorem runeCount_le_len (s : String) : utf8.RuneCountInString s ≤ len s := by
  unfold utf8.RuneCountInString len
  induction s.data with
  | nil => simp
  | cons a t ih =>
    have ha : 1 ≤ utf8.RuneLen a := by
      unfold utf8.RuneLen
      simp only
      split_ifs <;> omega
    simp only [List.length_cons, List.map_cons, List.sum_cons]
    omega

/-- A title whose trimmed form has more than 200 code points is rejected with
the length error. -/
theorem createChat_validate_over_200_code_points (t : String)
    (h : 200 < utf8.RuneCountInString (strings.TrimSpace t)) :
    (CreateChatRequest.Validate { Title := t }).2 = some (GoError.validation
      { Field := "title", Message := "title must be less than 200 characters" }) := by
  have hlen : 200 < len (strings.TrimSpace t) :=
    lt_of_lt_of_le h (runeCount_le_len _)
  rcases chatRequest_validate_cases { Title := t } with ⟨h0, _⟩ | ⟨_, _, h1⟩ | ⟨_, hle, _⟩
  · simp only at h0
    rw [h0] at h
    exact absurd h (by decide)
  · rw [h1]
  · simp only at hle
    omega

set_option maxRecDepth 100000 in
/-- C4: a title of 200 Cyrillic letters has 200 code points after trimming, yet
`CreateChatRequest.Validate` rejects it with the length error, because `len`
counts its 400 bytes. -/
theorem createChat_validate_200_code_points_rejected :
    utf8.RuneCountInString (strings.TrimSpace (String.mk (List.replicate 200 'я'))) = 200
      ∧ len (strings.TrimSpace (String.mk (List.replicate 200 'я'))) = 400
      ∧ (CreateChatRequest.Validate { Title := String.mk (List.replicate 200 'я') }).2
        = some (GoError.validation
          { Field := "title", Message := "title must be less than 200 characters" }) := by
  decide

/-- C5: on a string of white space only, the empty string included,
`CreateChatRequest.Validate` returns the error with field "title" and message
"title cannot be empty", `CreateMessageRequest.Validate` the error with field
"text" and message "text cannot be empty", whatever the length of the string;
neither returns its length error. -/
theorem validate_white_space_only (s : String)
    (hs : ∀ c ∈ s.data, unicode.IsSpace c = true) :
    (CreateChatRequest.Validate { Title := s }).2 = some (GoError.validation
        { Field := "title", Message := "title cannot be empty" })
      ∧ (CreateMessageRequest.Validate { Text := s }).2 = some (GoError.validation
        { Field := "text", Message := "text cannot be empty" })
      ∧ (CreateChatRequest.Validate { Title := s }).2 ≠ some (GoError.validation
        { Field := "title", Message := "title must be less than 200 characters" })
      ∧ (CreateMessageRequest.Validate { Text := s }).2 ≠ some (GoError.validation
        { Field := "text", Message := "text must be less than 5000 characters" }) := by
  have ht : strings.TrimSpace s = "" := (strings.TrimSpace_eq_empty_iff s).mpr hs
  have h1 : (CreateChatRequest.Validate { Title := s }).2 = some (GoError.validation
      { Field := "title", Message := "title cannot be empty" }) := by
    simp only [CreateChatRequest.Validate, ht, if_true]
  have h2 : (CreateMessageRequest.Validate { Text := s }).2 = some (GoError.validation
      { Field := "text", Message := "text cannot be empty" }) := by
    simp only [CreateMessageRequest.Validate, ht, if_true]
  refine ⟨h1, h2, ?_, ?_⟩
  · rw [h1]; decide
  · rw [h2]; decide

/-- C5, at a string of 300 spaces, tabs and no-break spaces. -/
theorem validate_white_space_only_witness :
    (CreateChatRequest.Validate
        { Title := String.mk (List.replicate 100 ' ' ++ List.replicate 100 '\t'
          ++ List.replicate 100 (Char.ofNat 0xA0)) }).2
        = some (GoError.validation { Field := "title", Message := "title cannot be empty" })
      ∧ (CreateMessageRequest.Validate
        { Text := String.mk (List.replicate 100 ' ' ++ List.replicate 100 '\t'
          ++ List.replicate 100 (Char.ofNat 0xA0)) }).2
        = some (GoError.validation { Field := "text", Message := "text cannot be empty" }) :=
  have h := validate_white_space_only
    (String.mk (List.replicate 100 ' ' ++ List.replicate 100 '\t'
      ++ List.replicate 100 (Char.ofNat 0xA0)))
    (by
      intro c hc
      simp only [List.mem_append, List.mem_replicate] at hc
      rcases hc with (⟨_, rfl⟩ | ⟨_, rfl⟩) | ⟨_, rfl⟩ <;> decide)
  ⟨h.1, h.2.1⟩

/-- C6: for a text whose trimmed form is not empty,
`CreateMessageRequest.Validate` returns the error
"text must be less than 5000 characters" exactly when `len` of the trimmed text
is above 5000, so 5000 passes and 5001 fails; a text whose trimmed form has at
most 5000 bytes is accepted whatever its own length, and two texts with the
same trimmed form get the same answer. -/
theorem message_validate_length_after_trim (text : String)
    (hne : strings.TrimSpace text ≠ "") :
    ((CreateMessageRequest.Validate { Text := text }).2 = some (GoError.validation
        { Field := "text", Message := "text must be less than 5000 characters" })
        ↔ 5000 < len (strings.TrimSpace text))
      ∧ (len (strings.TrimSpace text) = 5000 →
        (CreateMessageRequest.Validate { Text := text }).2 = none)
      ∧ (len (strings.TrimSpace text) = 5001 →
        (CreateMessageRequest.Validate { Text := text }).2 = some (GoError.validation
          { Field := "text", Message := "text must be less than 5000 characters" }))
      ∧ (len (strings.TrimSpace text) ≤ 5000 →
        (CreateMessageRequest.Validate { Text := text }).2 = none)
      ∧ (∀ other : String, strings.TrimSpace other = strings.TrimSpace text →
        (CreateMessageRequest.Validate { Text := other }).2
          = (CreateMessageRequest.Validate { Text := text }).2) := by
  have hpass : len (strings.TrimSpace text) ≤ 5000 →
      (CreateMessageRequest.Validate { Text := text }).2 = none := by
    intro h
    simp only [CreateMessageRequest.Validate, hne, if_false, not_lt.mpr h]
  have hfail : 5000 < len (strings.TrimSpace text) →
      (CreateMessageRequest.Validate { Text := text }).2 = some (GoError.validation
        { Field := "text", Message := "text must be less than 5000 characters" }) := by
    intro h
    simp only [CreateMessageRequest.Validate, hne, if_false, gt_iff_lt, h, if_true]
  refine ⟨⟨?_, hfail⟩, ?_, ?_, hpass, ?_⟩
  · intro h
    by_contra hle
    rw [hpass (not_lt.mp hle)] at h
    exact absurd h (by simp)
  · intro h; exact hpass (le_of_eq h)
  · intro h; exact hfail (by omega)
  · intro other ho
    simp only [CreateMessageRequest.Validate, ho]
    split_ifs <;> rfl

/-- C6, at a text of 6002 bytes, "hi" between 3000 spaces on either side. -/
theorem message_validate_length_after_trim_witness :
    len (String.mk (List.replicate 3000 ' ' ++ ['h', 'i'] ++ List.replicate 3000 ' ')) = 6002
      ∧ (CreateMessageRequest.Validate
        { Text := String.mk (List.replicate 3000 ' ' ++ ['h', 'i'] ++ List.replicate 3000 ' ') }).2
        = none :=
  have hsp : ∀ c ∈ List.replicate 3000 ' ', unicode.IsSpace c = true := by
    intro c hc
    rw [List.eq_of_mem_replicate hc]
    decide
  have ht : strings.TrimSpace
      (String.mk (List.replicate 3000 ' ' ++ ['h', 'i'] ++ List.replicate 3000 ' ')) = "hi" :=
    strings.TrimSpace_padded _ ['h', 'i'] _ hsp hsp (by decide)
  ⟨by rw [len_mk_append, len_mk_append, len_mk_replicate]; decide,
   (message_validate_length_after_trim
      (String.mk (List.replicate 3000 ' ' ++ ['h', 'i'] ++ List.replicate 3000 ' '))
      (by rw [ht]; decide)).2.2.2.1 (by rw [ht]; decide)⟩

/-- C7: when `Validate` accepts a title `t` and leaves the normalized title
`t2` in the request, `Validate` on a request holding `t2` accepts it and leaves
`t2` there; the same for `CreateMessageRequest.Validate` and the text. -/
theorem validate_idempotent_on_accepted (t t2 : String) :
    (CreateChatRequest.Validate { Title := t } = ({ Title := t2 }, none) →
        CreateChatRequest.Validate { Title := t2 } = ({ Title := t2 }, none))
      ∧ (CreateMessageRequest.Validate { Text := t } = ({ Text := t2 }, none) →
        CreateMessageRequest.Validate { Text := t2 } = ({ Text := t2 }, none)) := by
  constructor
  · intro h
    rcases chatRequest_validate_cases { Title := t } with ⟨_, h1⟩ | ⟨_, _, h1⟩ | ⟨hne, hle, h1⟩
    · rw [h1] at h; simp at h
    · rw [h1] at h; simp at h
    · rw [h1] at h
      simp only [Prod.mk.injEq, CreateChatRequest.mk.injEq, and_true] at h
      have hfix : strings.TrimSpace t2 = t2 := by rw [← h]; exact strings.TrimSpace_idem t
      rw [h] at hne hle
      simp only [CreateChatRequest.Validate, hfix, hne, if_false, gt_iff_lt, not_lt.mpr hle]
  · intro h
    rcases messageRequest_validate_cases { Text := t } with
      ⟨_, h1⟩ | ⟨_, _, h1⟩ | ⟨hne, hle, h1⟩
    · rw [h1] at h; simp at h
    · rw [h1] at h; simp at h
    · rw [h1] at h
      simp only [Prod.mk.injEq, CreateMessageRequest.mk.injEq, and_true] at h
      have hfix : strings.TrimSpace t2 = t2 := by rw [← h]; exact strings.TrimSpace_idem t
      rw [h] at hne hle
      simp only [CreateMessageRequest.Validate, hfix, hne, if_false, gt_iff_lt, not_lt.mpr hle]

/-- C7, at the padded title "  Valid Chat " and the padded text
"\tHello World\n". -/
theorem validate_idempotent_on_accepted_witness :
    CreateChatRequest.Validate { Title := "Valid Chat" } = ({ Title := "Valid Chat" }, none)
      ∧ CreateMessageRequest.Validate { Text := "Hello World" }
        = ({ Text := "Hello World" }, none) :=
  ⟨(validate_idempotent_on_accepted "  Valid Chat " "Valid Chat").1 (by decide),
   (validate_idempotent_on_accepted "\tHello World\n" "Hello World").2 (by decide)⟩

/-- C8: after `Validate`, a request that was accepted holds its title (text)
trimmed of leading and trailing white space, and a request that was rejected
holds the value it came with. -/
theorem validate_frame (cr : CreateChatRequest) (mr : CreateMessageRequest) :
    (cr.Validate.2 = none → cr.Validate.1.Title = strings.TrimSpace cr.Title)
      ∧ (cr.Validate.2 ≠ none → cr.Validate.1.Title = cr.Title)
      ∧ (mr.Validate.2 = none → mr.Validate.1.Text = strings.TrimSpace mr.Text)
      ∧ (mr.Validate.2 ≠ none → mr.Validate.1.Text = mr.Text) := by
  refine ⟨?_, ?_, ?_, ?_⟩
  · intro h
    rcases chatRequest_validate_cases cr with ⟨_, h1⟩ | ⟨_, _, h1⟩ | ⟨_, _, h1⟩
    · rw [h1] at h; simp at h
    · rw [h1] at h; simp at h
    · rw [h1]
  · intro h
    rcases chatRequest_validate_cases cr with ⟨_, h1⟩ | ⟨_, _, h1⟩ | ⟨_, _, h1⟩
    · rw [h1]
    · rw [h1]
    · rw [h1] at h; simp at h
  · intro h
    rcases messageRequest_validate_cases mr with ⟨_, h1⟩ | ⟨_, _, h1⟩ | ⟨_, _, h1⟩
    · rw [h1] at h; simp at h
    · rw [h1] at h; simp at h
    · rw [h1]
  · intro h
    rcases messageRequest_validate_cases mr with ⟨_, h1⟩ | ⟨_, _, h1⟩ | ⟨_, _, h1⟩
    · rw [h1]
    · rw [h1]
    · rw [h1] at h; simp at h

/-- C8, at an accepted padded title, a rejected blank title, an accepted padded
text and a rejected blank text. -/
theorem validate_frame_witness :
    (CreateChatRequest.Validate { Title := "  Valid Chat " }).1.Title = "Valid Chat"
      ∧ (CreateChatRequest.Validate { Title := "   " }).1.Title = "   "
      ∧ (CreateMessageRequest.Validate { Text := " Hello World\n" }).1.Text = "Hello World"
      ∧ (CreateMessageRequest.Validate { Text := " \t " }).1.Text = " \t " :=
  ⟨(validate_frame { Title := "  Valid Chat " } { Text := " Hello World\n" }).1 (by decide),
   (validate_frame { Title := "   " } { Text := " \t " }).2.1 (by decide),
   (validate_frame { Title := "  Valid Chat " } { Text := " Hello World\n" }).2.2.1 (by decide),
   (validate_frame { Title := "   " } { Text := " \t " }).2.2.2 (by decide)⟩

end Validation

/-! ## The chat service -/

section Service

open models repository service

variable {σ : Type}

/-- C1: when the text passes validation and `GetByID(chatID, 1)` answers with
no chat and no error, `CreateMessage` returns no message and the
`NotFoundError` for resource "chat" and id `chatID`, which renders as
"chat not found"; the only repository call made is that `GetByID`, so the
message repository's `Create` is not called. -/
theorem createMessage_chat_absent (s : chatService σ) (chatID : Int)
    (req : CreateMessageRequest) (w : World σ)
    (hvalid : req.Validate.2 = none)
    (habsent : (s.chatRepo.GetByID chatID 1 w.store).1 = (none, none)) :
    (s.CreateMessage chatID req w).1
        = (none, some (GoError.notFound { Resource := "chat", ID := chatID }))
      ∧ (GoError.notFound { Resource := "chat", ID := chatID }).Error = "chat not found"
      ∧ (s.CreateMessage chatID req w).2.calls = w.calls ++ [Call.ChatGetByID chatID 1]
      ∧ ∀ m, Call.MessageCreate m ∉ (s.CreateMessage chatID req w).2.calls.drop w.calls.length := by
  rcases hv : req.Validate with ⟨r, e⟩
  rw [hv] at hvalid
  simp only at hvalid
  subst hvalid
  have hcall : (s.callChatGetByID chatID 1 w).1 = (none, none) := habsent
  rcases hg : s.callChatGetByID chatID 1 w with ⟨⟨c, e⟩, w2⟩
  rw [hg] at hcall
  simp only [Prod.mk.injEq] at hcall
  obtain ⟨rfl, rfl⟩ := hcall
  have hw : w2.calls = w.calls ++ [Call.ChatGetByID chatID 1] := by
    have h3 := congrArg (fun x => x.2.calls) hg
    simpa [chatService.callChatGetByID] using h3.symm
  simp only [chatService.CreateMessage, hv, hg, hw, true_and]
  refine ⟨rfl, ?_⟩
  simp

/-- C1, at the input of `TestChatService_CreateMessage_ChatNotFound`. -/
theorem createMessage_chat_absent_witness :
    ((mockService (none, none) none).CreateMessage 999 { Text := "Hello World" }
        { store := 0, calls := [] }).1
        = (none, some (GoError.notFound { Resource := "chat", ID := 999 }))
      ∧ (GoError.notFound { Resource := "chat", ID := 999 }).Error = "chat not found"
      ∧ ((mockService (none, none) none).CreateMessage 999 { Text := "Hello World" }
          { store := 0, calls := [] }).2.calls = [] ++ [Call.ChatGetByID 999 1]
      ∧ ∀ m, Call.MessageCreate m ∉
          ((mockService (none, none) none).CreateMessage 999 { Text := "Hello World" }
            { store := 0, calls := [] }).2.calls.drop ([] : List Call).length :=
  createMessage_chat_absent (mockService (none, none) none) 999 { Text := "Hello World" }
    { store := 0, calls := [] } (by decide) rfl

/-- C2: when validation of the title (for `CreateChat`) or of the text (for
`CreateMessage`, with any `chatID`) fails with error `e`, the operation returns
no entity together with that same `e`, which is a `ValidationError`, and leaves
the store and the call log as they were: no repository call is made. -/
theorem validation_failure_short_circuits (s : chatService σ) (chatID : Int)
    (creq : CreateChatRequest) (mreq : CreateMessageRequest) (w : World σ) :
    (∀ e, creq.Validate.2 = some e →
        s.CreateChat creq w = ((none, some e), w) ∧ ∃ v, e = GoError.validation v)
      ∧ (∀ e, mreq.Validate.2 = some e →
        s.CreateMessage chatID mreq w = ((none, some e), w) ∧ ∃ v, e = GoError.validation v) := by
  constructor
  · intro e he
    rcases hv : creq.Validate with ⟨r, e2⟩
    rw [hv] at he
    simp only at he
    subst he
    refine ⟨by simp only [chatService.CreateChat, hv], ?_⟩
    unfold CreateChatRequest.Validate at hv
    simp only at hv
    split_ifs at hv <;> simp only [Prod.mk.injEq, Option.some.injEq] at hv
    · exact ⟨_, hv.2.symm⟩
    · exact ⟨_, hv.2.symm⟩
    · exact absurd hv.2 (by simp)
  · intro e he
    rcases hv : mreq.Validate with ⟨r, e2⟩
    rw [hv] at he
    simp only at he
    subst he
    refine ⟨by simp only [chatService.CreateMessage, hv], ?_⟩
    unfold CreateMessageRequest.Validate at hv
    simp only at hv
    split_ifs at hv <;> simp only [Prod.mk.injEq, Option.some.injEq] at hv
    · exact ⟨_, hv.2.symm⟩
    · exact ⟨_, hv.2.symm⟩
    · exact absurd hv.2 (by simp)

/-- C2, at the inputs of `TestChatService_CreateChat_EmptyTitle` and
`TestChatService_CreateMessage_EmptyText`. -/
theorem validation_failure_short_circuits_witness :
    ((mockService (none, none) none).CreateChat { Title := "" } { store := 0, calls := [] }
        = ((none, some (GoError.validation
            { Field := "title", Message := "title cannot be empty" })),
          { store := 0, calls := [] }))
      ∧ ((mockService (none, none) none).CreateMessage 1 { Text := "" }
          { store := 0, calls := [] }
        = ((none, some (GoError.validation
            { Field := "text", Message := "text cannot be empty" })),
          { store := 0, calls := [] })) :=
  ⟨((validation_failure_short_circuits (mockService (none, none) none) 1 { Title := "" }
      { Text := "" } { store := 0, calls := [] }).1 _ (by decide)).1,
   ((validation_failure_short_circuits (mockService (none, none) none) 1 { Title := "" }
      { Text := "" } { store := 0, calls := [] }).2 _ (by decide)).1⟩

/-- C3: `GetChatWithMessages(id, limit)` makes one repository call,
`GetByID(id, min(limit, 100))`, on the store as it stands; with limit 150 the
call carries 100, and a limit that is zero or negative is passed unchanged. -/
theorem getChatWithMessages_clamps_limit (s : chatService σ) (id limit : Int) (w : World σ) :
    (s.GetChatWithMessages id limit w).2.calls
        = w.calls ++ [Call.ChatGetByID id (min limit 100)]
      ∧ (s.GetChatWithMessages id limit w).2.store
        = (s.chatRepo.GetByID id (min limit 100) w.store).2
      ∧ (s.GetChatWithMessages id 150 w).2.calls = w.calls ++ [Call.ChatGetByID id 100]
      ∧ (limit ≤ 0 →
        (s.GetChatWithMessages id limit w).2.calls = w.calls ++ [Call.ChatGetByID id limit]) := by
  have key : ∀ l : Int, (s.GetChatWithMessages id l w).2
      = (s.callChatGetByID id (min l 100) w).2 := by
    intro l
    have hl : (if l > 100 then 100 else l) = min l 100 := by
      split_ifs with h
      · exact (min_eq_right (le_of_lt h)).symm
      · exact (min_eq_left (not_lt.mp h)).symm
    simp only [chatService.GetChatWithMessages, hl]
    rcases s.callChatGetByID id (min l 100) w with ⟨⟨c, e⟩, w2⟩
    cases e <;> cases c <;> rfl
  refine ⟨?_, ?_, ?_, ?_⟩
  · rw [key]; rfl
  · rw [key]; rfl
  · rw [key]; rfl
  · intro h
    rw [key, min_eq_left (le_trans h (by decide))]; rfl

/-- C3, at limits 150 (as in `TestChatService_GetChatWithMessages_LimitExceeded`)
and -5. -/
theorem getChatWithMessages_clamps_limit_witness :
    ((mockService (some { ID := 1, Title := "Test Chat", CreatedAt := 0, Messages := [] }, none)
        none).GetChatWithMessages 1 150 { store := 0, calls := [] }).2.calls
        = [Call.ChatGetByID 1 100]
      ∧ ((mockService (none, none) none).GetChatWithMessages 1 (-5)
          { store := 0, calls := [] }).2.calls = [Call.ChatGetByID 1 (-5)] :=
  ⟨(getChatWithMessages_clamps_limit (mockService
      (some { ID := 1, Title := "Test Chat", CreatedAt := 0, Messages := [] }, none) none)
      1 150 { store := 0, calls := [] }).2.2.1,
   (getChatWithMessages_clamps_limit (mockService (none, none) none) 1 (-5)
      { store := 0, calls := [] }).2.2.2 (by decide)⟩

/-- C9: when the title passes validation, `CreateChat` makes one repository
call, `Create` on the chat repository with the chat whose title is the trimmed
title and whose other fields are zero; when that call returns no error,
`CreateChat` returns the chat as the repository left it, with no error, so it
carries the id and creation time the repository assigned, and the trimmed title
when the repository leaves the title alone. -/
theorem createChat_success (s : chatService σ) (req : CreateChatRequest) (w : World σ)
    (hvalid : req.Validate.2 = none) :
    (s.CreateChat req w).2.calls = w.calls ++ [Call.ChatCreate
        { ID := 0, Title := strings.TrimSpace req.Title, CreatedAt := 0, Messages := [] }]
      ∧ (s.CreateChat req w).2.store = (s.chatRepo.Create
        { ID := 0, Title := strings.TrimSpace req.Title, CreatedAt := 0, Messages := [] }
        w.store).2
      ∧ ∀ created : Chat, (s.chatRepo.Create
          { ID := 0, Title := strings.TrimSpace req.Title, CreatedAt := 0, Messages := [] }
          w.store).1 = (created, none) →
        (s.CreateChat req w).1 = (some created, none)
          ∧ (created.Title = strings.TrimSpace req.Title →
            ∃ chat, (s.CreateChat req w).1.1 = some chat
              ∧ chat.Title = strings.TrimSpace req.Title
              ∧ chat.ID = created.ID ∧ chat.CreatedAt = created.CreatedAt) := by
  rcases chatRequest_validate_cases req with ⟨_, h1⟩ | ⟨_, _, h1⟩ | ⟨_, _, h1⟩
  · rw [h1] at hvalid; simp at hvalid
  · rw [h1] at hvalid; simp at hvalid
  · rcases hc : s.chatRepo.Create
      { ID := 0, Title := strings.TrimSpace req.Title, CreatedAt := 0, Messages := [] }
      w.store with ⟨⟨c, e⟩, st⟩
    cases e with
    | some err =>
      refine ⟨?_, ?_, ?_⟩
      · simp only [chatService.CreateChat, h1, chatService.callChatCreate, hc]
      · simp only [chatService.CreateChat, h1, chatService.callChatCreate, hc]
      · intro created hcr
        simp at hcr
    | none =>
      refine ⟨?_, ?_, ?_⟩
      · simp only [chatService.CreateChat, h1, chatService.callChatCreate, hc]
      · simp only [chatService.CreateChat, h1, chatService.callChatCreate, hc]
      · intro created hcr
        simp only [Prod.mk.injEq, and_true] at hcr
        subst hcr
        have hres : (s.CreateChat req w).1 = (some c, none) := by
          simp only [chatService.CreateChat, h1, chatService.callChatCreate, hc]
        refine ⟨hres, fun ht => ⟨c, ?_, ht, rfl, rfl⟩⟩
        rw [hres]

/-- C9, at the input of `TestChatService_CreateChat_Success` with padding
around the title. -/
theorem createChat_success_witness :
    ((mockService (none, none) none).CreateChat { Title := " Test Chat " }
        { store := 0, calls := [] }).2.calls
        = [Call.ChatCreate { ID := 0, Title := "Test Chat", CreatedAt := 0, Messages := [] }]
      ∧ ((mockService (none, none) none).CreateChat { Title := " Test Chat " }
        { store := 0, calls := [] }).1
        = (some { ID := 1, Title := "Test Chat", CreatedAt := 0, Messages := [] }, none) :=
  have h := createChat_success (mockService (none, none) none) { Title := " Test Chat " }
    { store := 0, calls := [] } (by decide)
  ⟨h.1, (h.2.2 { ID := 1, Title := "Test Chat", CreatedAt := 0, Messages := [] } rfl).1⟩

/-- C10: when the text passes validation, the first repository call of
`CreateMessage` is `GetByID(chatID, 1)`; when that returns a chat and no error,
the only other call is `Create` on the message repository, with the message
whose chat id is `chatID`, whose text is the trimmed text and whose other
fields are zero, and when that returns no error `CreateMessage` returns the
message as the repository left it, with no error. -/
theorem createMessage_success (s : chatService σ) (chatID : Int)
    (req : CreateMessageRequest) (w : World σ) (hvalid : req.Validate.2 = none) :
    (∃ rest, (s.CreateMessage chatID req w).2.calls
        = w.calls ++ Call.ChatGetByID chatID 1 :: rest)
      ∧ ∀ chat : Chat, (s.chatRepo.GetByID chatID 1 w.store).1 = (some chat, none) →
        (s.CreateMessage chatID req w).2.calls
            = w.calls ++ [Call.ChatGetByID chatID 1, Call.MessageCreate
              { ID := 0, ChatID := chatID, Text := strings.TrimSpace req.Text, CreatedAt := 0 }]
          ∧ ∀ created : Message, (s.messageRepo.Create
              { ID := 0, ChatID := chatID, Text := strings.TrimSpace req.Text, CreatedAt := 0 }
              (s.chatRepo.GetByID chatID 1 w.store).2).1 = (created, none) →
            (s.CreateMessage chatID req w).1 = (some created, none) := by
  rcases messageRequest_validate_cases req with ⟨_, h1⟩ | ⟨_, _, h1⟩ | ⟨_, _, h1⟩
  · rw [h1] at hvalid; simp at hvalid
  · rw [h1] at hvalid; simp at hvalid
  · rcases hg : s.chatRepo.GetByID chatID 1 w.store with ⟨⟨c, e⟩, st⟩
    cases e with
    | some err =>
      refine ⟨⟨[], ?_⟩, ?_⟩
      · simp only [chatService.CreateMessage, h1, chatService.callChatGetByID, hg]
      · intro chat hch
        simp at hch
    | none =>
      cases c with
      | none =>
        refine ⟨⟨[], ?_⟩, ?_⟩
        · simp only [chatService.CreateMessage, h1, chatService.callChatGetByID, hg]
        · intro chat hch
          simp at hch
      | some found =>
        rcases hm : s.messageRepo.Create
          { ID := 0, ChatID := chatID, Text := strings.TrimSpace req.Text, CreatedAt := 0 }
          st with ⟨⟨m, e2⟩, st2⟩
        have hcalls : (s.CreateMessage chatID req w).2.calls
            = w.calls ++ [Call.ChatGetByID chatID 1, Call.MessageCreate
              { ID := 0, ChatID := chatID, Text := strings.TrimSpace req.Text,
                CreatedAt := 0 }] := by
          cases e2 <;>
            simp [chatService.CreateMessage, h1, chatService.callChatGetByID, hg,
              chatService.callMessageCreate, hm]
        refine ⟨⟨_, by rw [hcalls]⟩, ?_⟩
        intro chat _
        refine ⟨hcalls, ?_⟩
        intro created hcr
        simp only [Prod.mk.injEq] at hcr
        obtain ⟨rfl, rfl⟩ := hcr
        simp only [chatService.CreateMessage, h1, chatService.callChatGetByID, hg,
          chatService.callMessageCreate, hm]

/-- C10, at the input of `TestChatService_CreateMessage_Success` with padding
around the text. -/
theorem createMessage_success_witness :
    ((mockService (some { ID := 1, Title := "Existing Chat", CreatedAt := 0, Messages := [] },
        none) none).CreateMessage 1 { Text := " Hello World " }
        { store := 0, calls := [] }).2.calls
        = [Call.ChatGetByID 1 1, Call.MessageCreate
            { ID := 0, ChatID := 1, Text := "Hello World", CreatedAt := 0 }]
      ∧ ((mockService
          (some { ID := 1, Title := "Existing Chat", CreatedAt := 0, Messages := [] }, none)
          none).CreateMessage 1 { Text := " Hello World " } { store := 0, calls := [] }).1
        = (some { ID := 1, ChatID := 1, Text := "Hello World", CreatedAt := 0 }, none) :=
  have h := (createMessage_success (mockService
    (some { ID := 1, Title := "Existing Chat", CreatedAt := 0, Messages := [] }, none) none)
    1 { Text := " Hello World " } { store := 0, calls := [] } (by decide)).2
    { ID := 1, Title := "Existing Chat", CreatedAt := 0, Messages := [] } rfl
  ⟨h.1, h.2 { ID := 1, ChatID := 1, Text := "Hello World", CreatedAt := 0 } rfl⟩

/-- C11: when `GetByID` returns no error, `GetChatWithMessages` returns no
chat and the `NotFoundError` for resource "chat" and the requested id exactly
when the repository returned no chat; when it returned a chat, that chat is
returned as it is, messages included, with no error. -/
theorem getChatWithMessages_result (s : chatService σ) (id limit : Int) (w : World σ)
    (found : Option Chat)
    (hok : (s.chatRepo.GetByID id (min limit 100) w.store).1 = (found, none)) :
    ((s.GetChatWithMessages id limit w).1
          = (none, some (GoError.notFound { Resource := "chat", ID := id }))
        ↔ found = none)
      ∧ ((∃ nf, (s.GetChatWithMessages id limit w).1.2 = some (GoError.notFound nf))
        ↔ found = none)
      ∧ ∀ chat, found = some chat →
        (s.GetChatWithMessages id limit w).1 = (some chat, none) := by
  have hl : (if limit > 100 then 100 else limit) = min limit 100 := by
    split_ifs with h
    · exact (min_eq_right (le_of_lt h)).symm
    · exact (min_eq_left (not_lt.mp h)).symm
  rcases hg : s.chatRepo.GetByID id (min limit 100) w.store with ⟨⟨c, e⟩, st⟩
  rw [hg] at hok
  simp only [Prod.mk.injEq] at hok
  obtain ⟨rfl, rfl⟩ := hok
  cases c with
  | none =>
    have hres : (s.GetChatWithMessages id limit w).1
        = (none, some (GoError.notFound { Resource := "chat", ID := id })) := by
      simp only [chatService.GetChatWithMessages, hl, chatService.callChatGetByID, hg]
    refine ⟨⟨fun _ => rfl, fun _ => hres⟩, ⟨fun _ => rfl, fun _ => ⟨_, by rw [hres]⟩⟩, ?_⟩
    intro chat hc
    simp at hc
  | some chat =>
    have hres : (s.GetChatWithMessages id limit w).1 = (some chat, none) := by
      simp only [chatService.GetChatWithMessages, hl, chatService.callChatGetByID, hg]
    refine ⟨⟨?_, ?_⟩, ⟨?_, ?_⟩, ?_⟩
    · intro h; rw [hres] at h; simp at h
    · intro h; simp at h
    · rintro ⟨nf, h⟩; rw [hres] at h; simp at h
    · intro h; simp at h
    · intro chat2 hc
      simp only [Option.some.injEq] at hc
      subst hc
      exact hres

/-- C11, at the inputs of `TestChatService_GetChatWithMessages_Success` and
`TestChatService_GetChatWithMessages_NotFound`. -/
theorem getChatWithMessages_result_witness :
    ((mockService (some testChat, none) none).GetChatWithMessages 1 20
        { store := 0, calls := [] }).1 = (some testChat, none)
      ∧ ((mockService (none, none) none).GetChatWithMessages 999 20
          { store := 0, calls := [] }).1
        = (none, some (GoError.notFound { Resource := "chat", ID := 999 })) :=
  ⟨(getChatWithMessages_result (mockService (some testChat, none) none)
      1 20 { store := 0, calls := [] } _ rfl).2.2 _ rfl,
   (getChatWithMessages_result (mockService (none, none) none) 999 20
      { store := 0, calls := [] } none rfl).1.mpr rfl⟩

/-- C12: an error `e` returned by a repository call comes back from the
service operation as it is, with no entity, and that call is the last one the
operation makes: `Create` in `CreateChat`; `GetByID` in `CreateMessage`, after
which the message repository is not called; `Create` on the message repository
in `CreateMessage`; `GetByID` in `GetChatWithMessages`; `Delete` in
`DeleteChat`. -/
theorem store_error_passes_through (s : chatService σ) (w : World σ) (e : GoError) :
    (∀ (req : CreateChatRequest) (c : Chat), req.Validate.2 = none →
        (s.chatRepo.Create
          { ID := 0, Title := strings.TrimSpace req.Title, CreatedAt := 0, Messages := [] }
          w.store).1 = (c, some e) →
        (s.CreateChat req w).1 = (none, some e)
          ∧ (s.CreateChat req w).2.calls = w.calls ++ [Call.ChatCreate
            { ID := 0, Title := strings.TrimSpace req.Title, CreatedAt := 0, Messages := [] }])
      ∧ (∀ (chatID : Int) (req : CreateMessageRequest) (c : Option Chat),
        req.Validate.2 = none →
        (s.chatRepo.GetByID chatID 1 w.store).1 = (c, some e) →
        (s.CreateMessage chatID req w).1 = (none, some e)
          ∧ (s.CreateMessage chatID req w).2.calls = w.calls ++ [Call.ChatGetByID chatID 1])
      ∧ (∀ (chatID : Int) (req : CreateMessageRequest) (chat : Chat) (m : Message),
        req.Validate.2 = none →
        (s.chatRepo.GetByID chatID 1 w.store).1 = (some chat, none) →
        (s.messageRepo.Create
          { ID := 0, ChatID := chatID, Text := strings.TrimSpace req.Text, CreatedAt := 0 }
          (s.chatRepo.GetByID chatID 1 w.store).2).1 = (m, some e) →
        (s.CreateMessage chatID req w).1 = (none, some e)
          ∧ (s.CreateMessage chatID req w).2.calls
            = w.calls ++ [Call.ChatGetByID chatID 1, Call.MessageCreate
              { ID := 0, ChatID := chatID, Text := strings.TrimSpace req.Text,
                CreatedAt := 0 }])
      ∧ (∀ (id limit : Int) (c : Option Chat),
        (s.chatRepo.GetByID id (min limit 100) w.store).1 = (c, some e) →
        (s.GetChatWithMessages id limit w).1 = (none, some e)
          ∧ (s.GetChatWithMessages id limit w).2.calls
            = w.calls ++ [Call.ChatGetByID id (min limit 100)])
      ∧ (∀ id : Int, (s.chatRepo.Delete id w.store).1 = some e →
        (s.DeleteChat id w).1 = some e
          ∧ (s.DeleteChat id w).2.calls = w.calls ++ [Call.ChatDelete id]) := by
  refine ⟨?_, ?_, ?_, ?_, ?_⟩
  · intro req c hvalid hc
    rcases chatRequest_validate_cases req with ⟨_, h1⟩ | ⟨_, _, h1⟩ | ⟨_, _, h1⟩
    · rw [h1] at hvalid; simp at hvalid
    · rw [h1] at hvalid; simp at hvalid
    · rcases hr : s.chatRepo.Create
        { ID := 0, Title := strings.TrimSpace req.Title, CreatedAt := 0, Messages := [] }
        w.store with ⟨⟨c2, e2⟩, st⟩
      rw [hr] at hc
      simp only [Prod.mk.injEq] at hc
      obtain ⟨rfl, rfl⟩ := hc
      constructor <;> simp only [chatService.CreateChat, h1, chatService.callChatCreate, hr]
  · intro chatID req c hvalid hc
    rcases messageRequest_validate_cases req with ⟨_, h1⟩ | ⟨_, _, h1⟩ | ⟨_, _, h1⟩
    · rw [h1] at hvalid; simp at hvalid
    · rw [h1] at hvalid; simp at hvalid
    · rcases hg : s.chatRepo.GetByID chatID 1 w.store with ⟨⟨c2, e2⟩, st⟩
      rw [hg] at hc
      simp only [Prod.mk.injEq] at hc
      obtain ⟨rfl, rfl⟩ := hc
      constructor <;>
        simp only [chatService.CreateMessage, h1, chatService.callChatGetByID, hg]
  · intro chatID req chat m hvalid hc hm
    rcases messageRequest_validate_cases req with ⟨_, h1⟩ | ⟨_, _, h1⟩ | ⟨_, _, h1⟩
    · rw [h1] at hvalid; simp at hvalid
    · rw [h1] at hvalid; simp at hvalid
    · rcases hg : s.chatRepo.GetByID chatID 1 w.store with ⟨⟨c2, e2⟩, st⟩
      rw [hg] at hc hm
      simp only [Prod.mk.injEq] at hc
      obtain ⟨rfl, rfl⟩ := hc
      rcases hr : s.messageRepo.Create
        { ID := 0, ChatID := chatID, Text := strings.TrimSpace req.Text, CreatedAt := 0 }
        st with ⟨⟨m2, e3⟩, st2⟩
      rw [hr] at hm
      simp only [Prod.mk.injEq] at hm
      obtain ⟨rfl, rfl⟩ := hm
      constructor <;>
        simp [chatService.CreateMessage, h1, chatService.callChatGetByID, hg,
          chatService.callMessageCreate, hr]
  · intro id limit c hc
    have hl : (if limit > 100 then 100 else limit) = min limit 100 := by
      split_ifs with h
      · exact (min_eq_right (le_of_lt h)).symm
      · exact (min_eq_left (not_lt.mp h)).symm
    rcases hg : s.chatRepo.GetByID id (min limit 100) w.store with ⟨⟨c2, e2⟩, st⟩
    rw [hg] at hc
    simp only [Prod.mk.injEq] at hc
    obtain ⟨rfl, rfl⟩ := hc
    constructor <;>
      simp only [chatService.GetChatWithMessages, hl, chatService.callChatGetByID, hg]
  · intro id hd
    exact ⟨hd, rfl⟩

/-- C12, at the inputs of `TestChatService_CreateChat_RepositoryError` and
`TestChatService_DeleteChat_RepositoryError`, and with the same failing
repository under the other operations. -/
theorem store_error_passes_through_witness :
    ((mockService (none, none) (some (GoError.other "database error"))).CreateChat
        { Title := "Test Chat" } { store := 0, calls := [] }).1
        = (none, some (GoError.other "database error"))
      ∧ ((mockService (none, some (GoError.other "database error")) none).CreateMessage 1
          { Text := "Hello World" } { store := 0, calls := [] }).2.calls
        = [Call.ChatGetByID 1 1]
      ∧ ((mockService (some testChat, none) (some (GoError.other "database error"))).CreateMessage
          1 { Text := "Hello World" } { store := 0, calls := [] }).1
        = (none, some (GoError.other "database error"))
      ∧ ((mockService (some testChat, some (GoError.other "database error"))
          none).GetChatWithMessages 1 20 { store := 0, calls := [] }).1
        = (none, some (GoError.other "database error"))
      ∧ ((mockService (none, none) (some (GoError.other "database error"))).DeleteChat 1
          { store := 0, calls := [] }).1 = some (GoError.other "database error") :=
  ⟨((store_error_passes_through (mockService (none, none)
      (some (GoError.other "database error"))) { store := 0, calls := [] }
      (GoError.other "database error")).1 { Title := "Test Chat" } _ (by decide) rfl).1,
   ((store_error_passes_through (mockService (none, some (GoError.other "database error"))
      none) { store := 0, calls := [] } (GoError.other "database error")).2.1 1
      { Text := "Hello World" } _ (by decide) rfl).2,
   ((store_error_passes_through (mockService (some testChat, none)
      (some (GoError.other "database error"))) { store := 0, calls := [] }
      (GoError.other "database error")).2.2.1 1 { Text := "Hello World" } testChat _
      (by decide) rfl rfl).1,
   ((store_error_passes_through (mockService (some testChat,
      some (GoError.other "database error")) none) { store := 0, calls := [] }
      (GoError.other "database error")).2.2.2.1 1 20 _ rfl).1,
   ((store_error_passes_through (mockService (none, none)
      (some (GoError.other "database error"))) { store := 0, calls := [] }
      (GoError.other "database error")).2.2.2.2 1 rfl).1⟩

/-- C13: `DeleteChat(id)` makes one repository call, `Delete(id)`, and no
`GetByID`; its result and the store it leaves are those of that `Delete`, so it
returns no error when `Delete` reports none, and a `NotFoundError` only if
`Delete` returned that very error. -/
theorem deleteChat_delegates (s : chatService σ) (id : Int) (w : World σ) :
    (s.DeleteChat id w).2.calls = w.calls ++ [Call.ChatDelete id]
      ∧ (s.DeleteChat id w).1 = (s.chatRepo.Delete id w.store).1
      ∧ (s.DeleteChat id w).2.store = (s.chatRepo.Delete id w.store).2
      ∧ (∀ g limit, Call.ChatGetByID g limit ∉ (s.DeleteChat id w).2.calls.drop w.calls.length)
      ∧ ((s.chatRepo.Delete id w.store).1 = none → (s.DeleteChat id w).1 = none)
      ∧ (∀ nf, (s.DeleteChat id w).1 = some (GoError.notFound nf) →
        (s.chatRepo.Delete id w.store).1 = some (GoError.notFound nf)) := by
  refine ⟨rfl, rfl, rfl, ?_, fun h => h, fun _ h => h⟩
  intro g limit
  simp [chatService.DeleteChat, chatService.callChatDelete]

/-- C13, at the input of `TestChatService_DeleteChat_Success`. -/
theorem deleteChat_delegates_witness :
    ((mockService (none, none) none).DeleteChat 1 { store := 0, calls := [] }).2.calls
        = [Call.ChatDelete 1]
      ∧ ((mockService (none, none) none).DeleteChat 1 { store := 0, calls := [] }).1 = none :=
  ⟨(deleteChat_delegates (mockService (none, none) none) 1 { store := 0, calls := [] }).1,
   (deleteChat_delegates (mockService (none, none) none) 1
      { store := 0, calls := [] }).2.2.2.2.1 rfl⟩

/-- What a trimmed, non-empty string of at most `n` bytes looks like: no white
space at either end and between 1 and `n` code points. -/
theorem trimmed_within (x : String) (n : Nat) (hne : strings.TrimSpace x ≠ "")
    (hle : len (strings.TrimSpace x) ≤ n) :
    (∀ a, (strings.TrimSpace x).data.head? = some a → unicode.IsSpace a = false)
      ∧ (∀ a, (strings.TrimSpace x).data.getLast? = some a → unicode.IsSpace a = false)
      ∧ 1 ≤ utf8.RuneCountInString (strings.TrimSpace x)
      ∧ utf8.RuneCountInString (strings.TrimSpace x) ≤ n := by
  have hdata : (strings.TrimSpace x).data ≠ [] := by
    intro h
    apply hne
    cases hx : strings.TrimSpace x with
    | mk d =>
      rw [hx] at h
      simp only at h
      subst h
      rfl
  refine ⟨?_, ?_, ?_, le_trans (runeCount_le_len _) hle⟩
  · intro a ha
    cases hd : (strings.TrimSpace x).data with
    | nil => exact absurd hd hdata
    | cons b r =>
      rw [hd] at ha
      simp only [List.head?_cons, Option.some.injEq] at ha
      subst ha
      exact strings.TrimSpace_head x b r hd
  · intro a ha
    have hl := strings.TrimSpace_last x hdata
    rw [List.getLast?_eq_getLast _ hdata, Option.some.injEq] at ha
    rw [← ha]
    exact hl
  · unfold utf8.RuneCountInString
    exact List.length_pos.mpr hdata

/-- The repository calls of `CreateChat`: none, or the one `Create` with a
validated title. -/
theorem createChat_calls_cases (s : chatService σ) (req : CreateChatRequest) (w : World σ) :
    (s.CreateChat req w).2.calls = w.calls
      ∨ (strings.TrimSpace req.Title ≠ "" ∧ len (strings.TrimSpace req.Title) ≤ 200
        ∧ (s.CreateChat req w).2.calls = w.calls ++ [Call.ChatCreate
          { ID := 0, Title := strings.TrimSpace req.Title, CreatedAt := 0, Messages := [] }]) := by
  rcases chatRequest_validate_cases req with ⟨_, h1⟩ | ⟨_, _, h1⟩ | ⟨hne, hle, h1⟩
  · left; simp only [chatService.CreateChat, h1]
  · left; simp only [chatService.CreateChat, h1]
  · right
    refine ⟨hne, hle, ?_⟩
    rcases hr : s.chatRepo.Create
      { ID := 0, Title := strings.TrimSpace req.Title, CreatedAt := 0, Messages := [] }
      w.store with ⟨⟨c2, e2⟩, st⟩
    cases e2 <;> simp only [chatService.CreateChat, h1, chatService.callChatCreate, hr]

/-- The repository calls of `CreateMessage`: none; or `GetByID` alone; or
`GetByID`, which returned a chat and no error, and then `Create` on the message
repository with a validated text. -/
theorem createMessage_calls_cases (s : chatService σ) (chatID : Int)
    (req : CreateMessageRequest) (w : World σ) :
    (s.CreateMessage chatID req w).2.calls = w.calls
      ∨ (s.CreateMessage chatID req w).2.calls = w.calls ++ [Call.ChatGetByID chatID 1]
      ∨ (strings.TrimSpace req.Text ≠ "" ∧ len (strings.TrimSpace req.Text) ≤ 5000
        ∧ (∃ chat, (s.chatRepo.GetByID chatID 1 w.store).1 = (some chat, none))
        ∧ (s.CreateMessage chatID req w).2.calls
          = w.calls ++ [Call.ChatGetByID chatID 1, Call.MessageCreate
            { ID := 0, ChatID := chatID, Text := strings.TrimSpace req.Text,
              CreatedAt := 0 }]) := by
  rcases messageRequest_validate_cases req with ⟨_, h1⟩ | ⟨_, _, h1⟩ | ⟨hne, hle, h1⟩
  · left; simp only [chatService.CreateMessage, h1]
  · left; simp only [chatService.CreateMessage, h1]
  · rcases hg : s.chatRepo.GetByID chatID 1 w.store with ⟨⟨c, e⟩, st⟩
    cases e with
    | some err =>
      right; left
      simp only [chatService.CreateMessage, h1, chatService.callChatGetByID, hg]
    | none =>
      cases c with
      | none =>
        right; left
        simp only [chatService.CreateMessage, h1, chatService.callChatGetByID, hg]
      | some chat =>
        right; right
        refine ⟨hne, hle, ⟨chat, rfl⟩, ?_⟩
        rcases hr : s.messageRepo.Create
          { ID := 0, ChatID := chatID, Text := strings.TrimSpace req.Text, CreatedAt := 0 }
          st with ⟨⟨m2, e3⟩, st2⟩
        cases e3 <;>
          simp [chatService.CreateMessage, h1, chatService.callChatGetByID, hg,
            chatService.callMessageCreate, hr]

/-- C14: whatever the repositories do, a chat that `CreateChat` passes to the
chat repository's `Create` has a title with no white space at either end and
between 1 and 200 characters (code points, and at most 200 bytes); a message
that `CreateMessage` passes to the message repository's `Create` has a text
with no white space at either end and between 1 and 5000 characters, and its
chat id is the one for which the `GetByID` just before returned a chat and no
error. -/
theorem store_arguments_valid (s : chatService σ) (w : World σ) :
    (∀ (req : CreateChatRequest) (c : Chat),
        Call.ChatCreate c ∈ (s.CreateChat req w).2.calls.drop w.calls.length →
        (∀ a, c.Title.data.head? = some a → unicode.IsSpace a = false)
          ∧ (∀ a, c.Title.data.getLast? = some a → unicode.IsSpace a = false)
          ∧ 1 ≤ utf8.RuneCountInString c.Title
          ∧ utf8.RuneCountInString c.Title ≤ 200
          ∧ len c.Title ≤ 200)
      ∧ (∀ (chatID : Int) (req : CreateMessageRequest) (m : Message),
        Call.MessageCreate m ∈ (s.CreateMessage chatID req w).2.calls.drop w.calls.length →
        (∀ a, m.Text.data.head? = some a → unicode.IsSpace a = false)
          ∧ (∀ a, m.Text.data.getLast? = some a → unicode.IsSpace a = false)
          ∧ 1 ≤ utf8.RuneCountInString m.Text
          ∧ utf8.RuneCountInString m.Text ≤ 5000
          ∧ len m.Text ≤ 5000
          ∧ m.ChatID = chatID
          ∧ (∃ chat, (s.chatRepo.GetByID chatID 1 w.store).1 = (some chat, none))
          ∧ (s.CreateMessage chatID req w).2.calls.drop w.calls.length
            = [Call.ChatGetByID chatID 1, Call.MessageCreate m]) := by
  constructor
  · intro req c hc
    rcases createChat_calls_cases s req w with h | ⟨hne, hle, h⟩
    · rw [h] at hc; simp at hc
    · rw [h] at hc
      simp only [List.drop_left, List.mem_singleton, Call.ChatCreate.injEq] at hc
      subst hc
      obtain ⟨h1, h2, h3, h4⟩ := trimmed_within req.Title 200 hne hle
      exact ⟨h1, h2, h3, h4, hle⟩
  · intro chatID req m hm
    rcases createMessage_calls_cases s chatID req w with h | h | ⟨hne, hle, hch, h⟩
    · rw [h] at hm; simp at hm
    · rw [h] at hm; simp at hm
    · rw [h] at hm ⊢
      simp only [List.drop_left, List.mem_cons, List.mem_singleton, Call.MessageCreate.injEq,
        List.not_mem_nil, or_false, false_or, reduceCtorEq] at hm
      subst hm
      obtain ⟨h1, h2, h3, h4⟩ := trimmed_within req.Text 5000 hne hle
      exact ⟨h1, h2, h3, h4, hle, rfl, hch, by simp⟩

/-- C14, at the inputs of `TestChatService_CreateChat_Success` and
`TestChatService_CreateMessage_Success` with padding added. -/
theorem store_arguments_valid_witness :
    (Call.ChatCreate { ID := 0, Title := "Test Chat", CreatedAt := 0, Messages := [] }
        ∈ ((mockService (none, none) none).CreateChat { Title := " Test Chat " }
          { store := 0, calls := [] }).2.calls
      ∧ 1 ≤ utf8.RuneCountInString "Test Chat" ∧ utf8.RuneCountInString "Test Chat" ≤ 200)
      ∧ (Call.MessageCreate { ID := 0, ChatID := 1, Text := "Hello World", CreatedAt := 0 }
        ∈ ((mockService (some testChat, none) none).CreateMessage 1 { Text := " Hello World " }
          { store := 0, calls := [] }).2.calls
      ∧ 1 ≤ utf8.RuneCountInString "Hello World"
      ∧ utf8.RuneCountInString "Hello World" ≤ 5000) :=
  have hc := (store_arguments_valid (mockService (none, none) none)
    { store := 0, calls := [] }).1 { Title := " Test Chat " }
    { ID := 0, Title := "Test Chat", CreatedAt := 0, Messages := [] } (by decide)
  have hm := (store_arguments_valid (mockService (some testChat, none) none)
    { store := 0, calls := [] }).2 1 { Text := " Hello World " }
    { ID := 0, ChatID := 1, Text := "Hello World", CreatedAt := 0 } (by decide)
  ⟨⟨by decide, hc.2.2.1, hc.2.2.2.1⟩, ⟨by decide, hm.2.2.1, hm.2.2.2.1⟩⟩

end Service

/-! ## The handlers -/

section Handlers

open models service handlers

variable {τ : Type}

/-- What `http.Error` leaves in a fresh recorder. -/
theorem http_Error_fresh (msg : String) (code : Nat) :
    http.Error http.NewRecorder msg code
      = { Code := code, wroteHeader := true,
          Header := [("X-Content-Type-Options", "nosniff"),
            ("Content-Type", "text/plain; charset=utf-8")],
          Body := [http.Written.text (msg ++ "\n")] } := by
  simp [http.Error, http.NewRecorder, http.ResponseWriter.HeaderDel,
    http.ResponseWriter.HeaderSet, http.ResponseWriter.WriteHeader, http.ResponseWriter.Write]

/-- What the JSON error answer leaves in a fresh recorder. -/
theorem json_error_fresh (m : String) :
    (((http.NewRecorder.HeaderSet "Content-Type" "application/json").WriteHeader
        http.StatusBadRequest).Encode (json.Value.errorMap m)).1
      = { Code := 400, wroteHeader := true, Header := [("Content-Type", "application/json")],
          Body := [http.Written.json (json.Value.errorMap m)] } := by
  simp [http.NewRecorder, http.ResponseWriter.HeaderSet, http.ResponseWriter.WriteHeader,
    http.ResponseWriter.Write, http.ResponseWriter.Encode, json.Marshals,
    http.StatusBadRequest]

/-- C15: in the `CreateChat` and `CreateMessage` handlers, when the service
returns a `ValidationError` with message `m`, the response has status 400,
`Content-Type` `application/json`, and as body the JSON encoding of the map
with the single entry "error" to `m`; the field name is not in it. -/
theorem validation_error_response (h : ChatHandler τ) (dec : json.Decoder) (r : http.Request)
    (env : Env τ) (ve : ValidationError) :
    (∀ (req : CreateChatRequest) (c : Option Chat),
        dec.CreateChatRequest r.Body = (req, none) →
        (h.service.CreateChat req env.state).1 = (c, some (GoError.validation ve)) →
        (h.CreateChat dec http.NewRecorder r env).1.Code = 400
          ∧ (h.CreateChat dec http.NewRecorder r env).1.HeaderGet "Content-Type"
            = "application/json"
          ∧ (h.CreateChat dec http.NewRecorder r env).1.Body
            = [http.Written.json (json.Value.errorMap ve.Message)])
      ∧ (∀ (chatID : Int) (req : CreateMessageRequest) (m : Option Message),
        strconv.Atoi (r.PathValue "id") = (chatID, none) →
        dec.CreateMessageRequest r.Body = (req, none) →
        (h.service.CreateMessage chatID req env.state).1
          = (m, some (GoError.validation ve)) →
        (h.CreateMessage dec http.NewRecorder r env).1.Code = 400
          ∧ (h.CreateMessage dec http.NewRecorder r env).1.HeaderGet "Content-Type"
            = "application/json"
          ∧ (h.CreateMessage dec http.NewRecorder r env).1.Body
            = [http.Written.json (json.Value.errorMap ve.Message)]) := by
  constructor
  · intro req c hdec hsvc
    rcases hs : h.service.CreateChat req env.state with ⟨⟨c2, e2⟩, st⟩
    rw [hs] at hsvc
    simp only [Prod.mk.injEq] at hsvc
    obtain ⟨rfl, rfl⟩ := hsvc
    have hresp : (h.CreateChat dec http.NewRecorder r env).1
        = { Code := 400, wroteHeader := true, Header := [("Content-Type", "application/json")],
            Body := [http.Written.json (json.Value.errorMap ve.Message)] } := by
      simp only [ChatHandler.CreateChat, hdec, ChatHandler.callCreateChat, hs, json_error_fresh]
      rfl
    rw [hresp]
    exact ⟨rfl, by simp [http.ResponseWriter.HeaderGet], rfl⟩
  · intro chatID req m hid hdec hsvc
    rcases hs : h.service.CreateMessage chatID req env.state with ⟨⟨m2, e2⟩, st⟩
    rw [hs] at hsvc
    simp only [Prod.mk.injEq] at hsvc
    obtain ⟨rfl, rfl⟩ := hsvc
    have hresp : (h.CreateMessage dec http.NewRecorder r env).1
        = { Code := 400, wroteHeader := true, Header := [("Content-Type", "application/json")],
            Body := [http.Written.json (json.Value.errorMap ve.Message)] } := by
      simp only [ChatHandler.CreateMessage, hid, hdec, ChatHandler.callCreateMessage, hs,
        json_error_fresh]
      rfl
    rw [hresp]
    exact ⟨rfl, by simp [http.ResponseWriter.HeaderGet], rfl⟩

/-- C15, at the input of `TestCreateChatHandler_ValidationError` and its
counterpart for messages. -/
theorem validation_error_response_witness :
    ((NewChatHandler (mockChatService
        (none, some (GoError.validation { Field := "title", Message := "title cannot be empty" }))
        (none, none) none)).CreateChat mockDecoder http.NewRecorder (mockRequest "" [] "")
        mockEnv).1.Body
        = [http.Written.json (json.Value.errorMap "title cannot be empty")]
      ∧ ((NewChatHandler (mockChatService (none, none)
          (none, some (GoError.validation
            { Field := "text", Message := "text cannot be empty" })) none)).CreateMessage
          mockDecoder http.NewRecorder (mockRequest "1" [] "") mockEnv).1.Code = 400 :=
  ⟨((validation_error_response (NewChatHandler (mockChatService
      (none, some (GoError.validation { Field := "title", Message := "title cannot be empty" }))
      (none, none) none)) mockDecoder (mockRequest "" [] "") mockEnv
      { Field := "title", Message := "title cannot be empty" }).1 _ _ rfl rfl).2.2,
   ((validation_error_response (NewChatHandler (mockChatService (none, none)
      (none, some (GoError.validation { Field := "text", Message := "text cannot be empty" }))
      none)) mockDecoder (mockRequest "1" [] "") mockEnv
      { Field := "text", Message := "text cannot be empty" }).2 1 _ _ (by decide) rfl rfl).1⟩

/-- C16, refuted as stated: when the service answers `CreateChat` or
`DeleteChat` with a `NotFoundError`, the handler responds 500 with the body
"Internal server error", not 404 with "chat not found". -/
theorem not_found_is_500_in_createChat_deleteChat :
    ((NewChatHandler (mockChatService
        (none, some (GoError.notFound { Resource := "chat", ID := 1 })) (none, none)
        none)).CreateChat mockDecoder http.NewRecorder (mockRequest "" [] "New Chat")
        mockEnv).1
        = { Code := 500, wroteHeader := true,
            Header := [("X-Content-Type-Options", "nosniff"),
              ("Content-Type", "text/plain; charset=utf-8")],
            Body := [http.Written.text "Internal server error\n"] }
      ∧ ((NewChatHandler (mockChatService (none, none) (none, none)
          (some (GoError.notFound { Resource := "chat", ID := 1 })))).DeleteChat
          http.NewRecorder (mockRequest "1" [] "") mockEnv).1
        = { Code := 500, wroteHeader := true,
            Header := [("X-Content-Type-Options", "nosniff"),
              ("Content-Type", "text/plain; charset=utf-8")],
            Body := [http.Written.text "Internal server error\n"] }
      ∧ ((NewChatHandler (mockChatService
          (none, some (GoError.notFound { Resource := "chat", ID := 1 })) (none, none)
          none)).CreateChat mockDecoder http.NewRecorder (mockRequest "" [] "New Chat")
          mockEnv).1.Code ≠ 404
      ∧ ((NewChatHandler (mockChatService (none, none) (none, none)
          (some (GoError.notFound { Resource := "chat", ID := 1 })))).DeleteChat
          http.NewRecorder (mockRequest "1" [] "") mockEnv).1.Code ≠ 404 := by
  decide

/-- C16, amended: in the `CreateMessage` and `GetChat` handlers, when the
service returns a `NotFoundError`, the response has status 404, a plain-text
`Content-Type`, and as body the rendered message "<resource> not found" and a
newline; in the `CreateChat` and `DeleteChat` handlers, which have no case for
it, a `NotFoundError` gets status 500 and the body "Internal server error". -/
theorem not_found_response (h : ChatHandler τ) (dec : json.Decoder) (r : http.Request)
    (env : Env τ) (nf : NotFoundError) :
    (∀ (chatID : Int) (req : CreateMessageRequest) (m : Option Message),
        strconv.Atoi (r.PathValue "id") = (chatID, none) →
        dec.CreateMessageRequest r.Body = (req, none) →
        (h.service.CreateMessage chatID req env.state).1 = (m, some (GoError.notFound nf)) →
        (h.CreateMessage dec http.NewRecorder r env).1.Code = 404
          ∧ (h.CreateMessage dec http.NewRecorder r env).1.HeaderGet "Content-Type"
            = "text/plain; charset=utf-8"
          ∧ (h.CreateMessage dec http.NewRecorder r env).1.Body
            = [http.Written.text (nf.Resource ++ " not found" ++ "\n")])
      ∧ (∀ (chatID : Int) (c : Option Chat),
        strconv.Atoi (r.PathValue "id") = (chatID, none) →
        (h.service.GetChatWithMessages chatID (getChatLimit r) env.state).1
          = (c, some (GoError.notFound nf)) →
        (h.GetChat http.NewRecorder r env).1.Code = 404
          ∧ (h.GetChat http.NewRecorder r env).1.HeaderGet "Content-Type"
            = "text/plain; charset=utf-8"
          ∧ (h.GetChat http.NewRecorder r env).1.Body
            = [http.Written.text (nf.Resource ++ " not found" ++ "\n")])
      ∧ (∀ (req : CreateChatRequest) (c : Option Chat),
        dec.CreateChatRequest r.Body = (req, none) →
        (h.service.CreateChat req env.state).1 = (c, some (GoError.notFound nf)) →
        (h.CreateChat dec http.NewRecorder r env).1.Code = 500
          ∧ (h.CreateChat dec http.NewRecorder r env).1.Body
            = [http.Written.text "Internal server error\n"])
      ∧ (∀ chatID : Int,
        strconv.Atoi (r.PathValue "id") = (chatID, none) →
        (h.service.DeleteChat chatID env.state).1 = some (GoError.notFound nf) →
        (h.DeleteChat http.NewRecorder r env).1.Code = 500
          ∧ (h.DeleteChat http.NewRecorder r env).1.Body
            = [http.Written.text "Internal server error\n"]) := by
  refine ⟨?_, ?_, ?_, ?_⟩
  · intro chatID req m hid hdec hsvc
    rcases hs : h.service.CreateMessage chatID req env.state with ⟨⟨m2, e2⟩, st⟩
    rw [hs] at hsvc
    simp only [Prod.mk.injEq] at hsvc
    obtain ⟨rfl, rfl⟩ := hsvc
    have hresp : (h.CreateMessage dec http.NewRecorder r env).1
        = http.Error http.NewRecorder (nf.Resource ++ " not found") 404 := by
      simp only [ChatHandler.CreateMessage, hid, hdec, ChatHandler.callCreateMessage, hs]
      rfl
    rw [hresp, http_Error_fresh]
    exact ⟨rfl, by simp [http.ResponseWriter.HeaderGet], rfl⟩
  · intro chatID c hid hsvc
    rcases hs : h.service.GetChatWithMessages chatID (getChatLimit r) env.state with
      ⟨⟨c2, e2⟩, st⟩
    rw [hs] at hsvc
    simp only [Prod.mk.injEq] at hsvc
    obtain ⟨rfl, rfl⟩ := hsvc
    have hresp : (h.GetChat http.NewRecorder r env).1
        = http.Error http.NewRecorder (nf.Resource ++ " not found") 404 := by
      simp only [ChatHandler.GetChat, hid, ChatHandler.callGetChatWithMessages, hs]
      rfl
    rw [hresp, http_Error_fresh]
    exact ⟨rfl, by simp [http.ResponseWriter.HeaderGet], rfl⟩
  · intro req c hdec hsvc
    rcases hs : h.service.CreateChat req env.state with ⟨⟨c2, e2⟩, st⟩
    rw [hs] at hsvc
    simp only [Prod.mk.injEq] at hsvc
    obtain ⟨rfl, rfl⟩ := hsvc
    have hresp : (h.CreateChat dec http.NewRecorder r env).1
        = http.Error http.NewRecorder "Internal server error" 500 := by
      simp only [ChatHandler.CreateChat, hdec, ChatHandler.callCreateChat, hs]
      rfl
    rw [hresp, http_Error_fresh]
    exact ⟨rfl, rfl⟩
  · intro chatID hid hsvc
    rcases hs : h.service.DeleteChat chatID env.state with ⟨e2, st⟩
    rw [hs] at hsvc
    simp only at hsvc
    subst hsvc
    have hresp : (h.DeleteChat http.NewRecorder r env).1
        = http.Error http.NewRecorder "Internal server error" 500 := by
      simp only [ChatHandler.DeleteChat, hid, ChatHandler.callDeleteChat, hs]
      rfl
    rw [hresp, http_Error_fresh]
    exact ⟨rfl, rfl⟩

/-- C16 as amended, at the inputs of `TestCreateMessageHandler_ChatNotFound` and
`TestGetChatHandler_ChatNotFound`. -/
theorem not_found_response_witness :
    ((NewChatHandler (mockChatService (none, none)
        (none, some (GoError.notFound { Resource := "chat", ID := 999 })) none)).CreateMessage
        mockDecoder http.NewRecorder (mockRequest "999" [] "Hello") mockEnv).1.Body
        = [http.Written.text "chat not found\n"]
      ∧ ((NewChatHandler (mockChatService
          (none, some (GoError.notFound { Resource := "chat", ID := 999 })) (none, none)
          none)).GetChat http.NewRecorder (mockRequest "999" [] "") mockEnv).1.Code = 404 :=
  ⟨((not_found_response (NewChatHandler (mockChatService (none, none)
      (none, some (GoError.notFound { Resource := "chat", ID := 999 })) none)) mockDecoder
      (mockRequest "999" [] "Hello") mockEnv { Resource := "chat", ID := 999 }).1
      999 _ _ (by decide) rfl rfl).2.2,
   ((not_found_response (NewChatHandler (mockChatService
      (none, some (GoError.notFound { Resource := "chat", ID := 999 })) (none, none) none))
      mockDecoder (mockRequest "999" [] "") mockEnv { Resource := "chat", ID := 999 }).2.1
      999 _ (by decide) rfl).1⟩

/-- C17: in each of the four handlers, when the service returns an error that
is neither a `ValidationError` nor a `NotFoundError`, the response is one fixed
value: status 500, plain-text `Content-Type`, body "Internal server error" and
a newline. Nothing in it depends on the error. -/
theorem other_error_response (h : ChatHandler τ) (dec : json.Decoder) (r : http.Request)
    (env : Env τ) (e : GoError) (hv : ∀ v, e ≠ GoError.validation v)
    (hn : ∀ n, e ≠ GoError.notFound n) :
    (∀ (req : CreateChatRequest) (c : Option Chat),
        dec.CreateChatRequest r.Body = (req, none) →
        (h.service.CreateChat req env.state).1 = (c, some e) →
        (h.CreateChat dec http.NewRecorder r env).1
          = { Code := 500, wroteHeader := true,
              Header := [("X-Content-Type-Options", "nosniff"),
                ("Content-Type", "text/plain; charset=utf-8")],
              Body := [http.Written.text "Internal server error\n"] })
      ∧ (∀ (chatID : Int) (req : CreateMessageRequest) (m : Option Message),
        strconv.Atoi (r.PathValue "id") = (chatID, none) →
        dec.CreateMessageRequest r.Body = (req, none) →
        (h.service.CreateMessage chatID req env.state).1 = (m, some e) →
        (h.CreateMessage dec http.NewRecorder r env).1
          = { Code := 500, wroteHeader := true,
              Header := [("X-Content-Type-Options", "nosniff"),
                ("Content-Type", "text/plain; charset=utf-8")],
              Body := [http.Written.text "Internal server error\n"] })
      ∧ (∀ (chatID : Int) (c : Option Chat),
        strconv.Atoi (r.PathValue "id") = (chatID, none) →
        (h.service.GetChatWithMessages chatID (getChatLimit r) env.state).1 = (c, some e) →
        (h.GetChat http.NewRecorder r env).1
          = { Code := 500, wroteHeader := true,
              Header := [("X-Content-Type-Options", "nosniff"),
                ("Content-Type", "text/plain; charset=utf-8")],
              Body := [http.Written.text "Internal server error\n"] })
      ∧ (∀ chatID : Int,
        strconv.Atoi (r.PathValue "id") = (chatID, none) →
        (h.service.DeleteChat chatID env.state).1 = some e →
        (h.DeleteChat http.NewRecorder r env).1
          = { Code := 500, wroteHeader := true,
              Header := [("X-Content-Type-Options", "nosniff"),
                ("Content-Type", "text/plain; charset=utf-8")],
              Body := [http.Written.text "Internal server error\n"] }) := by
  have hfix : http.Error http.NewRecorder "Internal server error" 500
      = { Code := 500, wroteHeader := true,
          Header := [("X-Content-Type-Options", "nosniff"),
            ("Content-Type", "text/plain; charset=utf-8")],
          Body := [http.Written.text "Internal server error\n"] } := by
    rw [http_Error_fresh]; rfl
  cases e with
  | validation v => exact absurd rfl (hv v)
  | notFound n => exact absurd rfl (hn n)
  | other text =>
    refine ⟨?_, ?_, ?_, ?_⟩
    · intro req c hdec hsvc
      rcases hs : h.service.CreateChat req env.state with ⟨⟨c2, e2⟩, st⟩
      rw [hs] at hsvc
      simp only [Prod.mk.injEq] at hsvc
      obtain ⟨rfl, rfl⟩ := hsvc
      refine Eq.trans ?_ hfix
      simp only [ChatHandler.CreateChat, hdec, ChatHandler.callCreateChat, hs]
      rfl
    · intro chatID req m hid hdec hsvc
      rcases hs : h.service.CreateMessage chatID req env.state with ⟨⟨m2, e2⟩, st⟩
      rw [hs] at hsvc
      simp only [Prod.mk.injEq] at hsvc
      obtain ⟨rfl, rfl⟩ := hsvc
      refine Eq.trans ?_ hfix
      simp only [ChatHandler.CreateMessage, hid, hdec, ChatHandler.callCreateMessage, hs]
      rfl
    · intro chatID c hid hsvc
      rcases hs : h.service.GetChatWithMessages chatID (getChatLimit r) env.state with
        ⟨⟨c2, e2⟩, st⟩
      rw [hs] at hsvc
      simp only [Prod.mk.injEq] at hsvc
      obtain ⟨rfl, rfl⟩ := hsvc
      refine Eq.trans ?_ hfix
      simp only [ChatHandler.GetChat, hid, ChatHandler.callGetChatWithMessages, hs]
      rfl
    · intro chatID hid hsvc
      rcases hs : h.service.DeleteChat chatID env.state with ⟨e2, st⟩
      rw [hs] at hsvc
      simp only at hsvc
      subst hsvc
      refine Eq.trans ?_ hfix
      simp only [ChatHandler.DeleteChat, hid, ChatHandler.callDeleteChat, hs]
      rfl

/-- C17, at the inputs of `TestCreateChatHandler_InternalServerError` and
`TestDeleteChatHandler_InternalServerError`: two different errors, one
response. -/
theorem other_error_response_witness :
    ((NewChatHandler (mockChatService (none, some (GoError.other "database error"))
        (none, none) none)).CreateChat mockDecoder http.NewRecorder
        (mockRequest "" [] "New Chat") mockEnv).1
      = ((NewChatHandler (mockChatService (none, none) (none, none)
          (some (GoError.other "connection refused")))).DeleteChat http.NewRecorder
          (mockRequest "1" [] "") mockEnv).1 :=
  (((other_error_response (NewChatHandler (mockChatService
      (none, some (GoError.other "database error")) (none, none) none)) mockDecoder
      (mockRequest "" [] "New Chat") mockEnv (GoError.other "database error")
      (by intro v hc; cases hc) (by intro n hc; cases hc)).1 _ _ rfl rfl).trans
    ((other_error_response (NewChatHandler (mockChatService (none, none) (none, none)
      (some (GoError.other "connection refused")))) mockDecoder
      (mockRequest "1" [] "") mockEnv (GoError.other "connection refused")
      (by intro v hc; cases hc) (by intro n hc; cases hc)).2.2.2 1 (by decide) rfl).symm)

/-- C18: in the `CreateMessage`, `GetChat` and `DeleteChat` handlers, when
`strconv.Atoi` rejects the chat id segment, the response has status 400 and the
body "Invalid chat ID" and a newline, and the service is not called: the state
behind it, the list of service calls and the log are as before. In
`CreateMessage` this is so for every decoder and every body. -/
theorem invalid_chat_id_response (h : ChatHandler τ) (dec : json.Decoder) (r : http.Request)
    (env : Env τ) (hid : (strconv.Atoi (r.PathValue "id")).2 ≠ none) :
    h.CreateMessage dec http.NewRecorder r env
        = (http.Error http.NewRecorder "Invalid chat ID" 400, env)
      ∧ h.GetChat http.NewRecorder r env
        = (http.Error http.NewRecorder "Invalid chat ID" 400, env)
      ∧ h.DeleteChat http.NewRecorder r env
        = (http.Error http.NewRecorder "Invalid chat ID" 400, env)
      ∧ (http.Error http.NewRecorder "Invalid chat ID" 400).Code = 400
      ∧ (http.Error http.NewRecorder "Invalid chat ID" 400).Body
        = [http.Written.text ("Invalid chat ID" ++ "\n")] := by
  rcases ha : strconv.Atoi (r.PathValue "id") with ⟨n, e⟩
  rw [ha] at hid
  cases e with
  | none => exact absurd rfl hid
  | some err =>
    refine ⟨?_, ?_, ?_, ?_, ?_⟩
    · simp only [ChatHandler.CreateMessage, ha]; rfl
    · simp only [ChatHandler.GetChat, ha]; rfl
    · simp only [ChatHandler.DeleteChat, ha]; rfl
    · rw [http_Error_fresh]
    · rw [http_Error_fresh]

/-- C18, at the inputs of `TestCreateMessageHandler_InvalidChatID` (with a body
that does not decode) and `TestDeleteChatHandler_InvalidChatID`. -/
theorem invalid_chat_id_response_witness :
    ((NewChatHandler (mockChatService (none, none) (none, none) none)).CreateMessage
        mockDecoder http.NewRecorder (mockRequest "invalid" [] "\x7b\"invalid json") mockEnv)
        = (http.Error http.NewRecorder "Invalid chat ID" 400, mockEnv)
      ∧ ((NewChatHandler (mockChatService (none, none) (none, none) none)).DeleteChat
          http.NewRecorder (mockRequest "invalid" [] "\x7b\"invalid json") mockEnv)
        = (http.Error http.NewRecorder "Invalid chat ID" 400, mockEnv) :=
  have hw := invalid_chat_id_response
    (NewChatHandler (mockChatService (none, none) (none, none) none)) mockDecoder
    (mockRequest "invalid" [] "\x7b\"invalid json") mockEnv (by decide)
  ⟨hw.1, hw.2.2.1⟩

/-- With a chat id that parses, `GetChat` calls the service once, with the
limit read from the query. -/
theorem getChat_calls (h : ChatHandler τ) (r : http.Request) (env : Env τ) (chatID : Int)
    (hid : strconv.Atoi (r.PathValue "id") = (chatID, none)) :
    (h.GetChat http.NewRecorder r env).2.calls
      = env.calls ++ [ServiceCall.GetChatWithMessages chatID (getChatLimit r)] := by
  rcases hs : h.service.GetChatWithMessages chatID (getChatLimit r) env.state with
    ⟨⟨c, e⟩, st⟩
  cases e with
  | none => simp only [ChatHandler.GetChat, hid, ChatHandler.callGetChatWithMessages, hs]
  | some err =>
    cases err <;>
      simp only [ChatHandler.GetChat, hid, ChatHandler.callGetChatWithMessages, hs, logPrintf]

/-- A query without the key gives "". -/
theorem queryGet_absent (r : http.Request) (key : String)
    (habs : ∀ kv ∈ r.Query, kv.1 ≠ key) : r.QueryGet key = "" := by
  have hfind : r.Query.find? (fun kv => decide (kv.1 = key)) = none := by
    rw [List.find?_eq_none]
    intro kv hkv
    simpa using habs kv hkv
  simp only [http.Request.QueryGet, hfind]

/-- C19: for a GET request whose chat id parses, the `GetChat` handler always
calls the service, once, and the limit it passes is `n` when the `limit` query
parameter parses as an integer `n` that is at least 1, and 20 when the
parameter is absent, empty, not an integer, or an integer below 1. -/
theorem getChat_limit (h : ChatHandler τ) (r : http.Request) (env : Env τ) (chatID : Int)
    (hid : strconv.Atoi (r.PathValue "id") = (chatID, none)) :
    (∃ limit, (h.GetChat http.NewRecorder r env).2.calls
        = env.calls ++ [ServiceCall.GetChatWithMessages chatID limit])
      ∧ (∀ n : Int, strconv.Atoi (r.QueryGet "limit") = (n, none) → 1 ≤ n →
        (h.GetChat http.NewRecorder r env).2.calls
          = env.calls ++ [ServiceCall.GetChatWithMessages chatID n])
      ∧ ((∀ kv ∈ r.Query, kv.1 ≠ "limit") →
        (h.GetChat http.NewRecorder r env).2.calls
          = env.calls ++ [ServiceCall.GetChatWithMessages chatID 20])
      ∧ (r.QueryGet "limit" = "" →
        (h.GetChat http.NewRecorder r env).2.calls
          = env.calls ++ [ServiceCall.GetChatWithMessages chatID 20])
      ∧ ((strconv.Atoi (r.QueryGet "limit")).2 ≠ none →
        (h.GetChat http.NewRecorder r env).2.calls
          = env.calls ++ [ServiceCall.GetChatWithMessages chatID 20])
      ∧ (∀ n : Int, strconv.Atoi (r.QueryGet "limit") = (n, none) → n < 1 →
        (h.GetChat http.NewRecorder r env).2.calls
          = env.calls ++ [ServiceCall.GetChatWithMessages chatID 20]) := by
  have hcalls := getChat_calls h r env chatID hid
  have hempty : r.QueryGet "limit" = "" → getChatLimit r = 20 := by
    intro hq
    simp only [getChatLimit, hq, ne_eq, not_true_eq_false, if_false]
  refine ⟨⟨_, hcalls⟩, ?_, ?_, ?_, ?_, ?_⟩
  · intro n hn h1
    have hq : r.QueryGet "limit" ≠ "" := by
      intro hq
      rw [hq] at hn
      have h0 : (strconv.Atoi "").2 = some strconv.NumError.ErrSyntax := by decide
      rw [hn] at h0
      exact absurd h0 (by simp)
    have hl : getChatLimit r = n := by
      simp only [getChatLimit, hq, ne_eq, not_false_eq_true, if_true, hn, not_true_eq_false,
        false_or, not_lt.mpr h1, if_false]
    rw [hcalls, hl]
  · intro habs
    rw [hcalls, hempty (queryGet_absent r "limit" habs)]
  · intro hq
    rw [hcalls, hempty hq]
  · intro herr
    have hl : getChatLimit r = 20 := by
      by_cases hq : r.QueryGet "limit" = ""
      · exact hempty hq
      · rcases ha : strconv.Atoi (r.QueryGet "limit") with ⟨n, e⟩
        rw [ha] at herr
        simp only [getChatLimit, hq, ne_eq, not_false_eq_true, if_true, ha, herr, true_or]
    rw [hcalls, hl]
  · intro n hn h1
    have hl : getChatLimit r = 20 := by
      by_cases hq : r.QueryGet "limit" = ""
      · exact hempty hq
      · simp only [getChatLimit, hq, ne_eq, not_false_eq_true, if_true, hn, h1, or_true]
    rw [hcalls, hl]

/-- C19, at the inputs of `TestGetChatHandler_WithCustomLimit`,
`TestGetChatHandler_Success` (no parameter), `TestGetChatHandler_InvalidLimit`
and with the limits "", "0" and "-3". -/
theorem getChat_limit_witness :
    ((NewChatHandler (mockChatService (some testChat, none) (none, none) none)).GetChat
        http.NewRecorder (mockRequest "1" [("limit", "50")] "") mockEnv).2.calls
        = [ServiceCall.GetChatWithMessages 1 50]
      ∧ ((NewChatHandler (mockChatService (some testChat, none) (none, none) none)).GetChat
          http.NewRecorder (mockRequest "1" [] "") mockEnv).2.calls
        = [ServiceCall.GetChatWithMessages 1 20]
      ∧ ((NewChatHandler (mockChatService (some testChat, none) (none, none) none)).GetChat
          http.NewRecorder (mockRequest "1" [("limit", "")] "") mockEnv).2.calls
        = [ServiceCall.GetChatWithMessages 1 20]
      ∧ ((NewChatHandler (mockChatService (some testChat, none) (none, none) none)).GetChat
          http.NewRecorder (mockRequest "1" [("limit", "invalid")] "") mockEnv).2.calls
        = [ServiceCall.GetChatWithMessages 1 20]
      ∧ ((NewChatHandler (mockChatService (some testChat, none) (none, none) none)).GetChat
          http.NewRecorder (mockRequest "1" [("limit", "0")] "") mockEnv).2.calls
        = [ServiceCall.GetChatWithMessages 1 20]
      ∧ ((NewChatHandler (mockChatService (some testChat, none) (none, none) none)).GetChat
          http.NewRecorder (mockRequest "1" [("limit", "-3")] "") mockEnv).2.calls
        = [ServiceCall.GetChatWithMessages 1 20] :=
  ⟨(getChat_limit (NewChatHandler (mockChatService (some testChat, none) (none, none) none))
      (mockRequest "1" [("limit", "50")] "") mockEnv 1 (by decide)).2.1 50 (by decide)
      (by decide),
   (getChat_limit (NewChatHandler (mockChatService (some testChat, none) (none, none) none))
      (mockRequest "1" [] "") mockEnv 1 (by decide)).2.2.1 (by decide),
   (getChat_limit (NewChatHandler (mockChatService (some testChat, none) (none, none) none))
      (mockRequest "1" [("limit", "")] "") mockEnv 1 (by decide)).2.2.2.1 (by decide),
   (getChat_limit (NewChatHandler (mockChatService (some testChat, none) (none, none) none))
      (mockRequest "1" [("limit", "invalid")] "") mockEnv 1 (by decide)).2.2.2.2.1 (by decide),
   (getChat_limit (NewChatHandler (mockChatService (some testChat, none) (none, none) none))
      (mockRequest "1" [("limit", "0")] "") mockEnv 1 (by decide)).2.2.2.2.2 0 (by decide)
      (by decide),
   (getChat_limit (NewChatHandler (mockChatService (some testChat, none) (none, none) none))
      (mockRequest "1" [("limit", "-3")] "") mockEnv 1 (by decide)).2.2.2.2.2 (-3) (by decide)
      (by decide)⟩

/-- C20: in the `CreateChat` handler, and in the `CreateMessage` handler once
the chat id has parsed, a body that fails to decode gets status 400 with a
plain-text `Content-Type` and the body "Invalid request body" and a newline,
and the service is not called: the state behind it, the list of service calls
and the log are as before. -/
theorem invalid_body_response (h : ChatHandler τ) (dec : json.Decoder) (r : http.Request)
    (env : Env τ) :
    ((dec.CreateChatRequest r.Body).2 ≠ none →
        h.CreateChat dec http.NewRecorder r env
          = (http.Error http.NewRecorder "Invalid request body" 400, env))
      ∧ (∀ chatID : Int, strconv.Atoi (r.PathValue "id") = (chatID, none) →
        (dec.CreateMessageRequest r.Body).2 ≠ none →
        h.CreateMessage dec http.NewRecorder r env
          = (http.Error http.NewRecorder "Invalid request body" 400, env))
      ∧ (http.Error http.NewRecorder "Invalid request body" 400).Code = 400
      ∧ (http.Error http.NewRecorder "Invalid request body" 400).HeaderGet "Content-Type"
        = "text/plain; charset=utf-8"
      ∧ (http.Error http.NewRecorder "Invalid request body" 400).Body
        = [http.Written.text "Invalid request body\n"] := by
  refine ⟨?_, ?_, ?_, ?_, ?_⟩
  · intro hd
    rcases hdec : dec.CreateChatRequest r.Body with ⟨req, e⟩
    rw [hdec] at hd
    cases e with
    | none => exact absurd rfl hd
    | some err => simp only [ChatHandler.CreateChat, hdec]; rfl
  · intro chatID hid hd
    rcases hdec : dec.CreateMessageRequest r.Body with ⟨req, e⟩
    rw [hdec] at hd
    cases e with
    | none => exact absurd rfl hd
    | some err => simp only [ChatHandler.CreateMessage, hid, hdec]; rfl
  · rw [http_Error_fresh]
  · rw [http_Error_fresh]; simp [http.ResponseWriter.HeaderGet]
  · rw [http_Error_fresh]; rfl

/-- C20, at the input of `TestCreateChatHandler_InvalidJSON` and the same body
sent to `CreateMessage`. -/
theorem invalid_body_response_witness :
    ((NewChatHandler (mockChatService (none, none) (none, none) none)).CreateChat mockDecoder
        http.NewRecorder (mockRequest "" [] "\x7b\"invalid json") mockEnv)
        = (http.Error http.NewRecorder "Invalid request body" 400, mockEnv)
      ∧ ((NewChatHandler (mockChatService (none, none) (none, none) none)).CreateMessage
          mockDecoder http.NewRecorder (mockRequest "1" [] "\x7b\"invalid json") mockEnv)
        = (http.Error http.NewRecorder "Invalid request body" 400, mockEnv) :=
  ⟨(invalid_body_response (NewChatHandler (mockChatService (none, none) (none, none) none))
      mockDecoder (mockRequest "" [] "\x7b\"invalid json") mockEnv).1 (by decide),
   (invalid_body_response (NewChatHandler (mockChatService (none, none) (none, none) none))
      mockDecoder (mockRequest "1" [] "\x7b\"invalid json") mockEnv).2.1 1 (by decide)
      (by decide)⟩

/-- C21, refuted as stated: when the service returns, with no error, a chat or
message created in year 10000, marshalling fails, the handler discards the
error of `Encode`, and the response has status 201 (200 for `GetChat`) with
nothing written to the body, not the entity as JSON body. -/
theorem success_response_unmarshallable :
    ((NewChatHandler (mockChatService (some farFutureChat, none) (none, none) none)).CreateChat
        mockDecoder http.NewRecorder (mockRequest "" [] "New Chat") mockEnv).1
        = { Code := 201, wroteHeader := true,
            Header := [("Content-Type", "application/json")], Body := [] }
      ∧ ((NewChatHandler (mockChatService (some farFutureChat, none) (none, none)
          none)).CreateChat mockDecoder http.NewRecorder (mockRequest "" [] "New Chat")
          mockEnv).1.Body ≠ [http.Written.json (json.Value.chat (some farFutureChat))]
      ∧ ((NewChatHandler (mockChatService (none, none) (some farFutureMessage, none)
          none)).CreateMessage mockDecoder http.NewRecorder (mockRequest "1" [] "Hello World")
          mockEnv).1.Body = []
      ∧ ((NewChatHandler (mockChatService (some farFutureChat, none) (none, none)
          none)).GetChat http.NewRecorder (mockRequest "1" [] "") mockEnv).1
        = { Code := 200, wroteHeader := false,
            Header := [("Content-Type", "application/json")], Body := [] } := by
  decide

/-- C21, amended: when the service call returns no error, the `CreateChat` and
`CreateMessage` handlers respond with status 201 and `Content-Type`
`application/json`, and `GetChat` with status 200 and the same `Content-Type`;
the body is the entity the service returned, as JSON, when that entity can be
marshalled, which is when every `created_at` in it has a year from 0 to 9999,
and otherwise nothing is written to the body. `DeleteChat` responds with status
204 and nothing written to the body. -/
theorem success_response (h : ChatHandler τ) (dec : json.Decoder) (r : http.Request)
    (env : Env τ) :
    (∀ (req : CreateChatRequest) (c : Option Chat),
        dec.CreateChatRequest r.Body = (req, none) →
        (h.service.CreateChat req env.state).1 = (c, none) →
        (json.Marshals (json.Value.chat c) = true →
            (h.CreateChat dec http.NewRecorder r env).1
              = { Code := 201, wroteHeader := true,
                  Header := [("Content-Type", "application/json")],
                  Body := [http.Written.json (json.Value.chat c)] })
          ∧ (json.Marshals (json.Value.chat c) = false →
            (h.CreateChat dec http.NewRecorder r env).1
              = { Code := 201, wroteHeader := true,
                  Header := [("Content-Type", "application/json")], Body := [] }))
      ∧ (∀ (chatID : Int) (req : CreateMessageRequest) (m : Option Message),
        strconv.Atoi (r.PathValue "id") = (chatID, none) →
        dec.CreateMessageRequest r.Body = (req, none) →
        (h.service.CreateMessage chatID req env.state).1 = (m, none) →
        (json.Marshals (json.Value.message m) = true →
            (h.CreateMessage dec http.NewRecorder r env).1
              = { Code := 201, wroteHeader := true,
                  Header := [("Content-Type", "application/json")],
                  Body := [http.Written.json (json.Value.message m)] })
          ∧ (json.Marshals (json.Value.message m) = false →
            (h.CreateMessage dec http.NewRecorder r env).1
              = { Code := 201, wroteHeader := true,
                  Header := [("Content-Type", "application/json")], Body := [] }))
      ∧ (∀ (chatID : Int) (c : Option Chat),
        strconv.Atoi (r.PathValue "id") = (chatID, none) →
        (h.service.GetChatWithMessages chatID (getChatLimit r) env.state).1 = (c, none) →
        (json.Marshals (json.Value.chat c) = true →
            (h.GetChat http.NewRecorder r env).1
              = { Code := 200, wroteHeader := true,
                  Header := [("Content-Type", "application/json")],
                  Body := [http.Written.json (json.Value.chat c)] })
          ∧ (json.Marshals (json.Value.chat c) = false →
            (h.GetChat http.NewRecorder r env).1
              = { Code := 200, wroteHeader := false,
                  Header := [("Content-Type", "application/json")], Body := [] }))
      ∧ (∀ chatID : Int,
        strconv.Atoi (r.PathValue "id") = (chatID, none) →
        (h.service.DeleteChat chatID env.state).1 = none →
        (h.DeleteChat http.NewRecorder r env).1
          = { Code := 204, wroteHeader := true, Header := [], Body := [] }) := by
  refine ⟨?_, ?_, ?_, ?_⟩
  · intro req c hdec hsvc
    rcases hs : h.service.CreateChat req env.state with ⟨⟨c2, e2⟩, st⟩
    rw [hs] at hsvc
    simp only [Prod.mk.injEq] at hsvc
    obtain ⟨rfl, rfl⟩ := hsvc
    constructor <;> intro hm <;>
      simp only [ChatHandler.CreateChat, hdec, ChatHandler.callCreateChat, hs] <;>
      simp [http.NewRecorder, http.ResponseWriter.HeaderSet, http.ResponseWriter.WriteHeader,
        http.ResponseWriter.Write, http.ResponseWriter.Encode, http.StatusCreated,
        http.StatusOK, hm]
  · intro chatID req m hid hdec hsvc
    rcases hs : h.service.CreateMessage chatID req env.state with ⟨⟨m2, e2⟩, st⟩
    rw [hs] at hsvc
    simp only [Prod.mk.injEq] at hsvc
    obtain ⟨rfl, rfl⟩ := hsvc
    constructor <;> intro hm <;>
      simp only [ChatHandler.CreateMessage, hid, hdec, ChatHandler.callCreateMessage, hs] <;>
      simp [http.NewRecorder, http.ResponseWriter.HeaderSet, http.ResponseWriter.WriteHeader,
        http.ResponseWriter.Write, http.ResponseWriter.Encode, http.StatusCreated,
        http.StatusOK, hm]
  · intro chatID c hid hsvc
    rcases hs : h.service.GetChatWithMessages chatID (getChatLimit r) env.state with
      ⟨⟨c2, e2⟩, st⟩
    rw [hs] at hsvc
    simp only [Prod.mk.injEq] at hsvc
    obtain ⟨rfl, rfl⟩ := hsvc
    constructor <;> intro hm <;>
      simp only [ChatHandler.GetChat, hid, ChatHandler.callGetChatWithMessages, hs] <;>
      simp [http.NewRecorder, http.ResponseWriter.HeaderSet, http.ResponseWriter.WriteHeader,
        http.ResponseWriter.Write, http.ResponseWriter.Encode, http.StatusOK, hm]
  · intro chatID hid hsvc
    rcases hs : h.service.DeleteChat chatID env.state with ⟨e2, st⟩
    rw [hs] at hsvc
    simp only at hsvc
    subst hsvc
    simp only [ChatHandler.DeleteChat, hid, ChatHandler.callDeleteChat, hs]
    simp [http.NewRecorder, http.ResponseWriter.WriteHeader, http.StatusNoContent]

/-- C21 as amended, at the inputs of `TestCreateChatHandler_Success`,
`TestGetChatHandler_Success` and `TestDeleteChatHandler_Success`, at a created
message, and at a chat that cannot be marshalled. -/
theorem success_response_witness :
    ((NewChatHandler (mockChatService (some testChat, none) (none, none) none)).CreateChat
        mockDecoder http.NewRecorder (mockRequest "" [] "Test Chat") mockEnv).1
        = { Code := 201, wroteHeader := true,
            Header := [("Content-Type", "application/json")],
            Body := [http.Written.json (json.Value.chat (some testChat))] }
      ∧ ((NewChatHandler (mockChatService (none, none)
          (some { ID := 1, ChatID := 1, Text := "Hello World", CreatedAt := 0 }, none)
          none)).CreateMessage mockDecoder http.NewRecorder (mockRequest "1" [] "Hello World")
          mockEnv).1.Body
        = [http.Written.json (json.Value.message
            (some { ID := 1, ChatID := 1, Text := "Hello World", CreatedAt := 0 }))]
      ∧ ((NewChatHandler (mockChatService (some testChat, none) (none, none) none)).GetChat
          http.NewRecorder (mockRequest "1" [] "") mockEnv).1.Code = 200
      ∧ ((NewChatHandler (mockChatService (none, none) (none, none) none)).DeleteChat
          http.NewRecorder (mockRequest "1" [] "") mockEnv).1
        = { Code := 204, wroteHeader := true, Header := [], Body := [] }
      ∧ ((NewChatHandler (mockChatService (some farFutureChat, none) (none, none)
          none)).CreateChat mockDecoder http.NewRecorder (mockRequest "" [] "New Chat")
          mockEnv).1.Body = [] :=
  ⟨((success_response (NewChatHandler (mockChatService (some testChat, none) (none, none)
      none)) mockDecoder (mockRequest "" [] "Test Chat") mockEnv).1 _ _ rfl rfl).1
      (by decide),
   congrArg http.ResponseWriter.Body
      (((success_response (NewChatHandler (mockChatService (none, none)
        (some { ID := 1, ChatID := 1, Text := "Hello World", CreatedAt := 0 }, none) none))
        mockDecoder (mockRequest "1" [] "Hello World") mockEnv).2.1 1 _ _ (by decide) rfl
        rfl).1 (by decide)),
   congrArg http.ResponseWriter.Code
      (((success_response (NewChatHandler (mockChatService (some testChat, none) (none, none)
        none)) mockDecoder (mockRequest "1" [] "") mockEnv).2.2.1 1 _ (by decide) rfl).1
        (by decide)),
   (success_response (NewChatHandler (mockChatService (none, none) (none, none) none))
      mockDecoder (mockRequest "1" [] "") mockEnv).2.2.2 1 (by decide) rfl,
   congrArg http.ResponseWriter.Body
      (((success_response (NewChatHandler (mockChatService (some farFutureChat, none)
        (none, none) none)) mockDecoder (mockRequest "" [] "New Chat") mockEnv).1 _ _ rfl
        rfl).2 (by decide))⟩

end Handlers

/-! ## The handlers over the chat service -/

section EndToEnd

open models repository service handlers

variable {σ : Type}

/-- The repository calls and the store that `GetChatWithMessages` leaves are
those of the one `GetByID` with the clamped limit. -/
theorem getChatWithMessages_world (s : chatService σ) (id limit : Int) (w : World σ) :
    (s.GetChatWithMessages id limit w).2
      = { store := (s.chatRepo.GetByID id (min limit 100) w.store).2,
          calls := w.calls ++ [Call.ChatGetByID id (min limit 100)] } := by
  have hl : (if limit > 100 then 100 else limit) = min limit 100 := by
    split_ifs with h
    · exact (min_eq_right (le_of_lt h)).symm
    · exact (min_eq_left (not_lt.mp h)).symm
  rcases hg : s.chatRepo.GetByID id (min limit 100) w.store with ⟨⟨c, e⟩, st⟩
  cases e <;> cases c <;>
    simp only [chatService.GetChatWithMessages, hl, chatService.callChatGetByID, hg]

/-- With a chat id that parses, the state `GetChat` leaves behind the service
is the one its service call leaves. -/
theorem getChat_state {τ : Type} (h : ChatHandler τ) (r : http.Request) (env : Env τ)
    (chatID : Int) (hid : strconv.Atoi (r.PathValue "id") = (chatID, none)) :
    (h.GetChat http.NewRecorder r env).2.state
      = (h.service.GetChatWithMessages chatID (getChatLimit r) env.state).2 := by
  rcases hs : h.service.GetChatWithMessages chatID (getChatLimit r) env.state with
    ⟨⟨c, e⟩, st⟩
  cases e with
  | none => simp only [ChatHandler.GetChat, hid, ChatHandler.callGetChatWithMessages, hs]
  | some err =>
    cases err <;>
      simp only [ChatHandler.GetChat, hid, ChatHandler.callGetChatWithMessages, hs, logPrintf]

/-- The limit `GetChat` reads: the parsed value of the parameter when it is an
integer that is at least 1, and 20 in every other case. -/
theorem getChatLimit_cases (r : http.Request) :
    (∃ n : Int, strconv.Atoi (r.QueryGet "limit") = (n, none) ∧ 1 ≤ n ∧ getChatLimit r = n)
      ∨ ((¬ ∃ n : Int, strconv.Atoi (r.QueryGet "limit") = (n, none) ∧ 1 ≤ n)
        ∧ getChatLimit r = 20) := by
  have h0 : (strconv.Atoi "").2 = some strconv.NumError.ErrSyntax := by decide
  by_cases hq : r.QueryGet "limit" = ""
  · right
    refine ⟨?_, by simp only [getChatLimit, hq, ne_eq, not_true_eq_false, if_false]⟩
    rintro ⟨n, hn, _⟩
    rw [hq] at hn
    rw [hn] at h0
    exact absurd h0 (by simp)
  · rcases ha : strconv.Atoi (r.QueryGet "limit") with ⟨n, e⟩
    cases e with
    | some err =>
      right
      refine ⟨?_, by simp [getChatLimit, hq, ha]⟩
      rintro ⟨m, hm, _⟩
      simp at hm
    | none =>
      by_cases h1 : 1 ≤ n
      · left
        refine ⟨n, rfl, h1, ?_⟩
        simp [getChatLimit, hq, ha, not_lt.mpr h1]
      · right
        refine ⟨?_, by simp [getChatLimit, hq, ha, not_le.mp h1]⟩
        rintro ⟨m, hm, hm1⟩
        simp only [Prod.mk.injEq, and_true] at hm
        subst hm
        exact h1 hm1

/-- C22: the `CreateMessage` handler over the chat service over any
repositories, for a chat id that parses and a decoded text that is empty or all
white space, responds with status 400, `Content-Type` `application/json` and
the JSON body with the single entry "error" to "text cannot be empty"; the
status is not 404, and the store and the list of repository calls are as
before, so no repository is called, whether the chat exists or not. -/
theorem blank_text_end_to_end (chatRepo : ChatRepository σ) (messageRepo : MessageRepository σ)
    (dec : json.Decoder) (r : http.Request) (env : Env (World σ)) (chatID : Int)
    (req : CreateMessageRequest)
    (hid : strconv.Atoi (r.PathValue "id") = (chatID, none))
    (hdec : dec.CreateMessageRequest r.Body = (req, none))
    (hblank : ∀ c ∈ req.Text.data, unicode.IsSpace c = true) :
    ((NewChatHandler (NewChatService chatRepo messageRepo)).CreateMessage dec http.NewRecorder
        r env).1
        = { Code := 400, wroteHeader := true, Header := [("Content-Type", "application/json")],
            Body := [http.Written.json (json.Value.errorMap "text cannot be empty")] }
      ∧ ((NewChatHandler (NewChatService chatRepo messageRepo)).CreateMessage dec
          http.NewRecorder r env).1.Code ≠ 404
      ∧ ((NewChatHandler (NewChatService chatRepo messageRepo)).CreateMessage dec
          http.NewRecorder r env).2.state = env.state := by
  have ht : strings.TrimSpace req.Text = "" := (strings.TrimSpace_eq_empty_iff _).mpr hblank
  have hval : req.Validate = (req, some (GoError.validation
      { Field := "text", Message := "text cannot be empty" })) := by
    simp only [CreateMessageRequest.Validate, ht, if_true]
  have hsvc : (NewChatService chatRepo messageRepo).CreateMessage chatID req env.state
      = ((none, some (GoError.validation
          { Field := "text", Message := "text cannot be empty" })), env.state) := by
    simp only [NewChatService, chatService.CreateMessage, hval]
  have hout : (NewChatHandler (NewChatService chatRepo messageRepo)).CreateMessage dec
      http.NewRecorder r env
      = ({ Code := 400, wroteHeader := true, Header := [("Content-Type", "application/json")],
           Body := [http.Written.json (json.Value.errorMap "text cannot be empty")] },
         { env with calls := env.calls ++ [ServiceCall.CreateMessage chatID req] }) := by
    simp only [ChatHandler.CreateMessage, hid, hdec, ChatHandler.callCreateMessage,
      NewChatHandler, hsvc, json_error_fresh]
    rfl
  rw [hout]
  exact ⟨rfl, by simp, rfl⟩

/-- C22, at the body of the spec's end-to-end example and at a text of spaces,
over repositories in which chat 1 exists. -/
theorem blank_text_end_to_end_witness :
    ((NewChatHandler (NewChatService (mockChatRepository (some testChat, none) none)
        (mockMessageRepository none))).CreateMessage mockDecoder http.NewRecorder
        (mockRequest "1" [] "") mockWorldEnv).1.Body
        = [http.Written.json (json.Value.errorMap "text cannot be empty")]
      ∧ ((NewChatHandler (NewChatService (mockChatRepository (none, none) none)
          (mockMessageRepository none))).CreateMessage mockDecoder http.NewRecorder
          (mockRequest "999" [] " \t  ") mockWorldEnv).2.state.calls = [] :=
  ⟨congrArg http.ResponseWriter.Body
      (blank_text_end_to_end (mockChatRepository (some testChat, none) none)
        (mockMessageRepository none) mockDecoder (mockRequest "1" [] "") mockWorldEnv 1
        { Text := "" } (by decide) rfl (by decide)).1,
   congrArg World.calls
      (blank_text_end_to_end (mockChatRepository (none, none) none)
        (mockMessageRepository none) mockDecoder (mockRequest "999" [] " \t  ") mockWorldEnv
        999 { Text := " \t  " } (by decide) rfl (by decide)).2.2⟩

/-- C24: through the `GetChat` handler over the chat service, for a chat id
that parses, the one repository call is `GetByID` with a limit between 1 and
100: `min(n, 100)` when the `limit` parameter parses as an integer `n` that is
at least 1, and 20 in every other case. -/
theorem getChat_store_limit (chatRepo : ChatRepository σ) (messageRepo : MessageRepository σ)
    (r : http.Request) (env : Env (World σ)) (chatID : Int)
    (hid : strconv.Atoi (r.PathValue "id") = (chatID, none)) :
    ∃ limit : Int,
      ((NewChatHandler (NewChatService chatRepo messageRepo)).GetChat http.NewRecorder r
          env).2.state.calls = env.state.calls ++ [Call.ChatGetByID chatID limit]
        ∧ 1 ≤ limit ∧ limit ≤ 100
        ∧ (∀ n : Int, strconv.Atoi (r.QueryGet "limit") = (n, none) → 1 ≤ n →
          limit = min n 100)
        ∧ ((¬ ∃ n : Int, strconv.Atoi (r.QueryGet "limit") = (n, none) ∧ 1 ≤ n) →
          limit = 20) := by
  have hstate := getChat_state (NewChatHandler (NewChatService chatRepo messageRepo)) r env
    chatID hid
  have hworld := getChatWithMessages_world
    ({ chatRepo := chatRepo, messageRepo := messageRepo } : chatService σ) chatID
    (getChatLimit r) env.state
  have hcalls : ((NewChatHandler (NewChatService chatRepo messageRepo)).GetChat
      http.NewRecorder r env).2.state.calls
      = env.state.calls ++ [Call.ChatGetByID chatID (min (getChatLimit r) 100)] := by
    rw [hstate]
    exact congrArg World.calls hworld
  refine ⟨min (getChatLimit r) 100, hcalls, ?_⟩
  rcases getChatLimit_cases r with ⟨n, hn, h1, hl⟩ | ⟨hno, hl⟩
  · rw [hl]
    refine ⟨le_min h1 (by decide), min_le_right _ _, ?_, ?_⟩
    · intro m hm _
      rw [hn] at hm
      simp only [Prod.mk.injEq, and_true] at hm
      rw [hm]
    · intro hno
      exact absurd ⟨n, hn, h1⟩ hno
  · rw [hl]
    refine ⟨by decide, by decide, ?_, ?_⟩
    · intro m hm h1
      exact absurd ⟨m, hm, h1⟩ hno
    · intro _
      decide

/-- C24, at the limits "150", "50", "invalid", "0" and "-3" and without the
parameter. -/
theorem getChat_store_limit_witness :
    (((NewChatHandler (NewChatService (mockChatRepository (some testChat, none) none)
        (mockMessageRepository none))).GetChat http.NewRecorder
        (mockRequest "1" [("limit", "150")] "") mockWorldEnv).2.state.calls
        = [Call.ChatGetByID 1 100])
      ∧ (((NewChatHandler (NewChatService (mockChatRepository (some testChat, none) none)
          (mockMessageRepository none))).GetChat http.NewRecorder
          (mockRequest "1" [("limit", "-3")] "") mockWorldEnv).2.state.calls
        = [Call.ChatGetByID 1 20]) := by
  obtain ⟨l1, hc1, _, _, hn1, _⟩ := getChat_store_limit
    (mockChatRepository (some testChat, none) none) (mockMessageRepository none)
    (mockRequest "1" [("limit", "150")] "") mockWorldEnv 1 (by decide)
  obtain ⟨l2, hc2, _, _, _, ho2⟩ := getChat_store_limit
    (mockChatRepository (some testChat, none) none) (mockMessageRepository none)
    (mockRequest "1" [("limit", "-3")] "") mockWorldEnv 1 (by decide)
  have e1 : l1 = 100 := hn1 150 (by decide) (by decide)
  have e2 : l2 = 20 := ho2 (by
    rintro ⟨n, hn, h1⟩
    have h3 : strconv.Atoi "-3" = (-3, none) := by decide
    have h4 : strconv.Atoi ((mockRequest "1" [("limit", "-3")] "").QueryGet "limit")
        = (-3, none) := h3
    rw [h4] at hn
    simp only [Prod.mk.injEq, and_true] at hn
    omega)
  rw [e1] at hc1
  rw [e2] at hc2
  exact ⟨hc1, hc2⟩

end EndToEnd

/-! ## The chat repository -/

section Repository

open models repository

variable {σ : Type}

/-- C23: the repository's `GetByID` returns no chat and no error when the chat
lookup fails with record-not-found; no chat and the same error when the lookup
fails with any other error or when loading the messages fails; and in no case a
chat together with an error. -/
theorem repository_getByID_result (r : chatRepository σ) (id limit : Int) (st : σ) :
    (∀ (c : Chat) (e : GoError),
        (r.db.First { ID := 0, Title := "", CreatedAt := 0, Messages := [] } id st).1
          = (c, some e) →
        r.db.IsRecordNotFound e = true → (r.GetByID id limit st).1 = (none, none))
      ∧ (∀ (c : Chat) (e : GoError),
        (r.db.First { ID := 0, Title := "", CreatedAt := 0, Messages := [] } id st).1
          = (c, some e) →
        r.db.IsRecordNotFound e = false → (r.GetByID id limit st).1 = (none, some e))
      ∧ (∀ (c : Chat) (ms : List Message) (e : GoError),
        (r.db.First { ID := 0, Title := "", CreatedAt := 0, Messages := [] } id st).1
          = (c, none) →
        (r.db.FindMessages c limit
          (r.db.First { ID := 0, Title := "", CreatedAt := 0, Messages := [] } id st).2).1
          = (ms, some e) →
        (r.GetByID id limit st).1 = (none, some e))
      ∧ (∀ (chat : Chat) (e : GoError), (r.GetByID id limit st).1 ≠ (some chat, some e)) := by
  rcases hf : r.db.First { ID := 0, Title := "", CreatedAt := 0, Messages := [] } id st with
    ⟨⟨c0, e0⟩, st1⟩
  cases e0 with
  | some err =>
    refine ⟨?_, ?_, ?_, ?_⟩
    · intro c e hc hnf
      simp only [Prod.mk.injEq, Option.some.injEq] at hc
      obtain ⟨_, rfl⟩ := hc
      simp only [chatRepository.GetByID, hf, hnf, if_true]
    · intro c e hc hnf
      simp only [Prod.mk.injEq, Option.some.injEq] at hc
      obtain ⟨_, rfl⟩ := hc
      simp [chatRepository.GetByID, hf, hnf]
    · intro c ms e hc _
      simp at hc
    · intro chat e
      simp only [chatRepository.GetByID, hf]
      split_ifs <;> simp
  | none =>
    rcases hm : r.db.FindMessages c0 limit st1 with ⟨⟨ms0, e1⟩, st2⟩
    refine ⟨?_, ?_, ?_, ?_⟩
    · intro c e hc _
      simp at hc
    · intro c e hc _
      simp at hc
    · intro c ms e hc hme
      simp only [Prod.mk.injEq, and_true] at hc
      subst hc
      rw [hm] at hme
      simp only [Prod.mk.injEq] at hme
      obtain ⟨_, rfl⟩ := hme
      simp only [chatRepository.GetByID, hf, hm]
    · intro chat e
      cases e1 <;> simp [chatRepository.GetByID, hf, hm]

/-- C23, at the set-ups of `TestChatRepository_GetByID_NotFound` and
`TestChatRepository_GetByID_DatabaseError`, and with the message query
failing. -/
theorem repository_getByID_result_witness :
    ((chatRepository.GetByID
        { db := mockDB ({ ID := 0, Title := "", CreatedAt := 0, Messages := [] },
          some (GoError.other "record not found")) ([], none) } 999 20 ()).1 = (none, none))
      ∧ ((chatRepository.GetByID
          { db := mockDB ({ ID := 0, Title := "", CreatedAt := 0, Messages := [] },
            some (GoError.other "assert.AnError general error for testing")) ([], none) }
          1 20 ()).1
        = (none, some (GoError.other "assert.AnError general error for testing")))
      ∧ ((chatRepository.GetByID
          { db := mockDB ({ ID := 1, Title := "Test Chat", CreatedAt := 0, Messages := [] },
            none) ([], some (GoError.other "connection lost")) } 1 20 ()).1
        = (none, some (GoError.other "connection lost"))) :=
  ⟨(repository_getByID_result
      { db := mockDB ({ ID := 0, Title := "", CreatedAt := 0, Messages := [] },
        some (GoError.other "record not found")) ([], none) } 999 20 ()).1 _ _ rfl
      (by decide),
   (repository_getByID_result
      { db := mockDB ({ ID := 0, Title := "", CreatedAt := 0, Messages := [] },
        some (GoError.other "assert.AnError general error for testing")) ([], none) }
      1 20 ()).2.1 _ _ rfl (by decide),
   (repository_getByID_result
      { db := mockDB ({ ID := 1, Title := "Test Chat", CreatedAt := 0, Messages := [] },
        none) ([], some (GoError.other "connection lost")) } 1 20 ()).2.2.1 _ _ _ rfl rfl⟩

end Repository

end SimpleChat
